import Mathlib

/-!
# Verification of the Aging Pivot Engine
  (`src/ml_project/backend_api/fastapi_analysis_helper.py`)

Shallow embedding of the six pandas report functions of the repository:
`open_complaint_pivot`, `open_close_complaint_pivot`, `agging_open_pivot_dict`,
`agging_open_close_pivot_dict`, `generate_all_agging_complaint_report` and
`open_close_complaint_report`.

Modelling conventions (documented inline at each definition):
* A loaded spreadsheet is a `RawTable`: a list of rows plus one presence flag
  per required column.  Accessing an absent column is pandas' `KeyError`;
  an unparsable filed-date cell is `date = none` and `pd.to_datetime` on it
  raises, modelled by `Except`.
* Timestamps are modelled at day granularity: a date is an integer day
  number and the reference time (`pd.Timestamp.today()`) an integer day, so
  `(today - df['DATE']).dt.days` is integer subtraction.
* Python `str.strip` / `str.lower` / `str.title` are re-implemented over
  character lists (ASCII case mapping, as in the data this code handles).
* `pd.pivot_table(..., aggfunc='count'/'size', fill_value=0)` groups with
  `sort=True`, so row keys are the lexicographically sorted distinct index
  values and cell values are group sizes with absent combinations filled
  with 0.  The exact column sets per function (observed pairs for the
  department×status pivots, all six bucket labels for the categorical
  `Age_Bucket` pivots, the full product for the three-level pivot) follow
  pandas' unstack / categorical-reindex semantics and are documented at
  each definition.
* `pivot['Grand_Total'] = pivot.sum(axis=1)` and
  `pivot.loc['Grand_Total'] = pivot.sum(axis=0)` append a new column/row
  unless the label already exists, in which case they overwrite in place;
  both branches are modelled.
-/

deriving instance DecidableEq for Except

namespace AgingPivot

/-! ## Python string primitives -/

/-- The whitespace characters stripped by Python `str.strip()`
(ASCII subset: space, tab, newline, carriage return, vertical tab, form feed). -/
def pyWs (c : Char) : Bool :=
  c = ' ' || c = '\t' || c = '\n' || c = '\x0d' || c = '\x0b' || c = '\x0c'

/-- Python `str.strip()`: remove leading and trailing whitespace. -/
def pyStrip (s : String) : String :=
  ⟨((s.data.dropWhile pyWs).reverse.dropWhile pyWs).reverse⟩

/-- Python `str.lower()` (ASCII case mapping, via `Char.toLower`). -/
def pyLower (s : String) : String :=
  ⟨s.data.map Char.toLower⟩

/-- Helper for `pyTitle`: the boolean records whether the previous character
was alphabetic (i.e. whether we are inside a word). -/
def pyTitleAux : List Char → Bool → List Char
  | [], _ => []
  | c :: cs, inWord =>
    if c.isAlpha then
      (if inWord then c.toLower else c.toUpper) :: pyTitleAux cs true
    else
      c :: pyTitleAux cs false

/-- Python `str.title()`: first alphabetic character of every run of
alphabetic characters uppercased, the rest lowercased. -/
def pyTitle (s : String) : String :=
  ⟨pyTitleAux s.data false⟩

/-- Python `str.strip('_')`: remove leading and trailing underscores
(used when flattening pivot column tuples). -/
def stripUnderscore (s : String) : String :=
  ⟨((s.data.dropWhile (· = '_')).reverse.dropWhile (· = '_')).reverse⟩

/-- `df[col].astype(str).str.strip().str.title()` — the normalization the
source applies to complaint type / department / status values. -/
def norm (s : String) : String := pyTitle (pyStrip s)

/-- The Open filter `df['CLOSED/OPEN'].str.lower().str.strip() == 'open'`. -/
def isOpenStatus (s : String) : Bool := pyStrip (pyLower s) = "open"

/-! ## Data model -/

/-- One row of the loaded spreadsheet.  `date` is `none` when the filed-date
cell cannot be parsed as a timestamp (`pd.to_datetime` would raise on it);
otherwise it is the filed date as a day number. -/
structure RawRow where
  slno : Nat
  complaintType : String
  dept : String
  status : String
  date : Option Int
  deriving DecidableEq

/-- A loaded spreadsheet: data rows plus a presence flag per column the
engine may require.  A `false` flag models the column being absent from the
file, in which case any access raises pandas' `KeyError`. -/
structure RawTable where
  hasSlno : Bool
  hasType : Bool
  hasDept : Bool
  hasStatus : Bool
  hasDate : Bool
  rows : List RawRow
  deriving DecidableEq

/-- A table with all required columns present (the valid-input case). -/
def table (rows : List RawRow) : RawTable :=
  ⟨true, true, true, true, true, rows⟩

/-- A row of a fully parsable table. -/
def mkRow (slno : Nat) (ct dept status : String) (date : Int) : RawRow :=
  ⟨slno, ct, dept, status, some date⟩

/-- Errors the engine propagates to the caller: pandas `KeyError` on a
missing column (or missing pivot labels) and a date `ParserError` from
`pd.to_datetime`. -/
inductive Err where
  | keyError (col : String)
  | parseError
  deriving DecidableEq

/-- A field name of a serialized report row: a plain string for flattened /
single-level columns, an integer for the row labels appearing inside
`DataFrame.to_dict()`'s column-oriented output, and a tuple for unflattened
`MultiIndex` column keys. -/
inductive Key where
  | str (v : String)
  | idx (v : Nat)
  | tup (v : List String)
  deriving DecidableEq

/-- A serialized cell value.  `intVal` is an integer-typed value (an `int64`
cell); `floatVal` is a float-typed value of integral magnitude, which arises
only where the source skips the final `astype(int)` cast. -/
inductive Cell where
  | strVal (s : String)
  | intVal (n : Int)
  | floatVal (n : Int)
  deriving DecidableEq

/-- A serialized report row: an ordered field-name → value mapping. -/
abbrev Row := List (Key × Cell)

/-- The serialized output of a report function: either an ordered sequence
of row mappings (`DataFrame.to_dict(orient='records')`, and also how we
read the rows of a returned `DataFrame`), or the column-oriented
`DataFrame.to_dict()` default (field → row-label → value). -/
inductive Out where
  | records (rows : List Row)
  | columnsDict (cols : List (String × List (Nat × Cell)))
  deriving DecidableEq

/-! ## Age buckets -/

/-- The fixed bucket labels, in canonical order (source lines 144/208/266). -/
def ageLabels : List String :=
  ["<15Days", "16-30Days", "31-60Days", "61-90Days", "91-180Days", ">180Days"]

/-- `pd.cut(age, bins=[0,15,30,60,90,180,inf], labels=ageLabels, right=True,
include_lowest=True)`: intervals `[0,15]`, `(15,30]`, `(30,60]`, `(60,90]`,
`(90,180]`, `(180,∞)`; a negative age falls in no bin (`NaN` category). -/
def ageBucket (a : Int) : Option String :=
  if a < 0 then none
  else if a ≤ 15 then some "<15Days"
  else if a ≤ 30 then some "16-30Days"
  else if a ≤ 60 then some "31-60Days"
  else if a ≤ 90 then some "61-90Days"
  else if a ≤ 180 then some "91-180Days"
  else some ">180Days"

/-- `(today - df['DATE']).dt.days` at day granularity: whole-day age of a
row relative to the reference day.  After a successful parse every date is
`some`; the default is irrelevant and never reached on parsed tables. -/
def ageDays (ref : Int) (r : RawRow) : Int := ref - r.date.getD 0

/-! ## Generic pivot machinery

`pd.pivot_table(..., aggfunc='count'/'size', fill_value=0, sort=True)`
is modelled by a matrix of group sizes over explicit row/column key lists.
-/

/-- Insert into a `le`-sorted list. -/
def insSorted (le : κ → κ → Bool) (x : κ) : List κ → List κ
  | [] => [x]
  | y :: ys => if le x y then x :: y :: ys else y :: insSorted le x ys

/-- Insertion sort by `le`. -/
def sortBy (le : κ → κ → Bool) : List κ → List κ
  | [] => []
  | x :: xs => insSorted le x (sortBy le xs)

/-- Remove duplicates (keeps the last occurrence; the result is always
sorted afterwards, so which occurrence survives is irrelevant). -/
def dedup [DecidableEq κ] : List κ → List κ
  | [] => []
  | x :: xs => if x ∈ xs then dedup xs else x :: dedup xs

/-- The sorted distinct values of a list — pandas' sorted group keys. -/
def uniqueSortedBy [DecidableEq κ] (le : κ → κ → Bool) (xs : List κ) : List κ :=
  sortBy le (dedup xs)

/-- Lexicographic (code-point) comparison of character lists. -/
def lexLt : List Char → List Char → Bool
  | [], [] => false
  | [], _ :: _ => true
  | _ :: _, [] => false
  | a :: as, b :: bs => if a < b then true else if b < a then false else lexLt as bs

/-- Python `<` on strings: code-point lexicographic. -/
def strLt (a b : String) : Bool := lexLt a.data b.data

/-- Python `<=` on strings (total order, so `a <= b` iff not `b < a`). -/
def strLe (a b : String) : Bool := !(strLt b a)

/-- Sorted distinct strings. -/
def uniqueSorted (xs : List String) : List String := uniqueSortedBy strLe xs

/-- Python tuple order on pairs of strings. -/
def pairLe (a b : String × String) : Bool :=
  strLt a.1 b.1 || (decide (a.1 = b.1) && strLe a.2 b.2)

/-- The number of rows of `rs` whose row key is `r` and which match column
`c` — one pivot cell (group size, `fill_value=0` when no row matches). -/
def cellCount (rs : List RawRow) (rk : RawRow → String) (m : RawRow → κ → Bool)
    (r : String) (c : κ) : Nat :=
  (rs.filter (fun x => decide (rk x = r) && m x c)).length

/-- An intermediate pivot table: row keys, column keys, and the cell matrix
(row-major; `cells.length = rowKeys.length` and every row of `cells` has
length `colKeys.length` by construction). -/
structure PTable (κ : Type) where
  rowKeys : List String
  colKeys : List κ
  cells : List (List Nat)
  deriving DecidableEq

/-- Build the pivot matrix of group sizes. -/
def mkPivot (rs : List RawRow) (rk : RawRow → String) (m : RawRow → κ → Bool)
    (rowKeys : List String) (colKeys : List κ) : PTable κ :=
  ⟨rowKeys, colKeys, rowKeys.map fun r => colKeys.map fun c => cellCount rs rk m r c⟩

/-- `pivot['Grand_Total'] = pivot.sum(axis=1)`: the row-wise sums over the
current columns, appended as a new column — unless a column already carries
the grand-total label, in which case that column is overwritten in place. -/
def addGTCol [DecidableEq κ] (gtKey : κ) (p : PTable κ) : PTable κ :=
  if gtKey ∈ p.colKeys then
    ⟨p.rowKeys, p.colKeys,
      p.cells.map fun row => (p.colKeys.zip row).map fun cv =>
        if cv.1 = gtKey then row.sum else cv.2⟩
  else
    ⟨p.rowKeys, p.colKeys ++ [gtKey], p.cells.map fun row => row ++ [row.sum]⟩

/-- `pivot.loc['Grand_Total'] = pivot.sum(axis=0)`: the column-wise sums
over the current rows (including the grand-total column if already added),
appended as a new row — unless a row is already labelled `Grand_Total`, in
which case that row is overwritten in place. -/
def addGTRow (p : PTable κ) : PTable κ :=
  let s := p.cells.foldr (List.zipWith (· + ·)) (List.replicate p.colKeys.length 0)
  if "Grand_Total" ∈ p.rowKeys then
    ⟨p.rowKeys, p.colKeys,
      (p.rowKeys.zip p.cells).map fun rc => if rc.1 = "Grand_Total" then s else rc.2⟩
  else
    ⟨p.rowKeys ++ ["Grand_Total"], p.colKeys, p.cells ++ [s]⟩

/-- `reset_index()` followed by `to_dict(orient='records')` (equally, the
rows of the returned `DataFrame`): one mapping per row, fields in order
(index field, then each column).  Cell values carry the integer dtype
(`astype(int)` or the int64 the count pivot already has). -/
def renderRecords (idxName : String) (showCol : κ → Key) (p : PTable κ) : Out :=
  .records ((p.rowKeys.zip p.cells).map fun rc =>
    (Key.str idxName, Cell.strVal rc.1) ::
      (p.colKeys.zip rc.2).map fun cv => (showCol cv.1, Cell.intVal (cv.2 : Int)))

/-- `to_dict(orient='records')` without a preceding `reset_index()`: the
index is discarded entirely, each row keeps only the column fields. -/
def renderRecordsNoIndex (showCol : κ → Key) (p : PTable κ) : Out :=
  .records (p.cells.map fun row =>
    (p.colKeys.zip row).map fun cv => (showCol cv.1, Cell.intVal (cv.2 : Int)))

/-- `reset_index()` followed by plain `to_dict()` (column-oriented default):
field → (positional row label → value). -/
def renderColumnsDict (idxName : String) (p : PTable String) : Out :=
  .columnsDict ((idxName, p.rowKeys.enum.map fun ir => (ir.1, Cell.strVal ir.2)) ::
    p.colKeys.enum.map fun jc =>
      (jc.2, (p.cells.map fun row => row.getD jc.1 0).enum.map fun iv =>
        (iv.1, Cell.intVal (iv.2 : Int))))

/-- Pandas `KeyError` on accessing a column absent from the frame. -/
def requireCol (b : Bool) (col : String) : Except Err Unit :=
  if b then .ok () else .error (.keyError col)

/-- `pd.to_datetime` over a column: raises a parse error if any value in
the column is unparsable, otherwise succeeds (no silent drop). -/
def parseDates (rs : List RawRow) : Except Err Unit :=
  if rs.any (fun r => r.date.isNone) then .error .parseError else .ok ()

/-! ## The six report functions -/

/-- The rows surviving the Open filter of lines 27 / 130. -/
def openRows (t : RawTable) : List RawRow :=
  t.rows.filter fun r => isOpenStatus r.status

/-- Lines 8-52.  Load; filter to Open; pivot complaint type × department
with counts; grand totals; `astype(int)`; `reset_index`.  Note that line 28
normalizes `df['COMPLAINT TYPE']` on `df` only — `df_open` was copied out on
line 27, so the pivot groups the raw (unnormalized) complaint types; the
only effect of line 28 is the `KeyError` when the column is absent. -/
def open_complaint_pivot (t : RawTable) : Except Err Out := do
  requireCol t.hasStatus "CLOSED/OPEN"
  requireCol t.hasType "COMPLAINT TYPE"
  requireCol t.hasDept "DEPT"
  pure (renderRecords "COMPLAINT TYPE" Key.str (addGTRow (addGTCol "Grand_Total"
    (mkPivot (openRows t) (·.complaintType) (fun r c => decide (r.dept = c))
      (uniqueSorted ((openRows t).map (·.complaintType)))
      (uniqueSorted ((openRows t).map (·.dept)))))))

/-- The complaint type × age bucket count pivot shared by the two aging
dict reports (lines 148-155 / 212-219): columns are the six bucket labels
(the categorical `Age_Bucket` with `observed=False` yields every category
as a column, reordered to `ageLabels` by line 158 / 222), rows are the
sorted distinct normalized complaint types of every considered row (the
`observed=False` reindex includes types whose rows all have a `NaN` bucket,
as all-zero rows); a row is counted in column `lbl` iff its whole-day age
falls in that bucket. -/
def agingPivot (ref : Int) (rowKeys : List String) (counted : List RawRow) :
    PTable String :=
  mkPivot counted (fun r => norm r.complaintType)
    (fun r lbl => decide (ageBucket (ageDays ref r) = some lbl)) rowKeys ageLabels

/-- Lines 111-175.  Filter to Open; parse the (filtered) dates; normalize
complaint type; bucket by age; pivot; reorder columns to the canonical
bucket order; grand totals; `astype(int)`; records dict.  When the Open
filter leaves no rows the pivot is an empty frame with no columns (pandas
drops the all-NaN columns of an empty pivot), and line 158
(`pivot_data[labels]`) raises a `KeyError` naming the missing labels. -/
def agging_open_pivot_dict (ref : Int) (t : RawTable) : Except Err Out := do
  requireCol t.hasStatus "CLOSED/OPEN"
  requireCol t.hasDate "DATE"
  parseDates (openRows t)
  requireCol t.hasType "COMPLAINT TYPE"
  if (openRows t).isEmpty then throw (.keyError "<15Days")
  else
    pure (renderRecords "COMPLAINT TYPE" Key.str
      (addGTRow (addGTCol "Grand_Total"
        (agingPivot ref (uniqueSorted ((openRows t).map fun r => norm r.complaintType))
          (openRows t)))))

/-- Lines 178-239.  Same as `agging_open_pivot_dict` but with no Open
filter: every row is parsed, bucketed and counted; the line-222 label
reorder raises `KeyError` exactly when the table itself is empty. -/
def agging_open_close_pivot_dict (ref : Int) (t : RawTable) : Except Err Out := do
  requireCol t.hasDate "DATE"
  parseDates t.rows
  requireCol t.hasType "COMPLAINT TYPE"
  requireCol t.hasStatus "CLOSED/OPEN"
  if t.rows.isEmpty then throw (.keyError "<15Days")
  else
    pure (renderRecords "COMPLAINT TYPE" Key.str
      (addGTRow (addGTCol "Grand_Total"
        (agingPivot ref (uniqueSorted (t.rows.map fun r => norm r.complaintType))
          t.rows))))

/-- The complaint type × (department, status) size pivot of lines 83-89,
with its two-level column keys flattened to `"DEPT_STATUS"` (line 93).
The pivot's columns are the (department, status) pairs observed in the
data (multi-level unstack produces observed combinations only), sorted
lexicographically. -/
def deptStatusPivotFlat (rows : List RawRow) : PTable String :=
  ⟨(mkPivot rows (fun r => norm r.complaintType)
      (fun r c => decide ((norm r.dept, norm r.status) = c))
      (uniqueSorted (rows.map fun r => norm r.complaintType))
      (uniqueSortedBy pairLe (rows.map fun r => (norm r.dept, norm r.status)))).rowKeys,
   (mkPivot rows (fun r => norm r.complaintType)
      (fun r c => decide ((norm r.dept, norm r.status) = c))
      (uniqueSorted (rows.map fun r => norm r.complaintType))
      (uniqueSortedBy pairLe (rows.map fun r => (norm r.dept, norm r.status)))).colKeys.map
     (fun c => stripUnderscore (c.1 ++ "_" ++ c.2)),
   (mkPivot rows (fun r => norm r.complaintType)
      (fun r c => decide ((norm r.dept, norm r.status) = c))
      (uniqueSorted (rows.map fun r => norm r.complaintType))
      (uniqueSortedBy pairLe (rows.map fun r => (norm r.dept, norm r.status)))).cells⟩

/-- Lines 57-108.  Normalize complaint type, department and status; pivot
complaint type × (department, status) by row occurrence (`aggfunc='size'`);
flatten the two-level column keys to `"DEPT_STATUS"` (line 93, before the
totals); grand totals; `astype(int)`; `reset_index`; then plain `to_dict()`
— the column-oriented default, not `orient='records'`. -/
def open_close_complaint_pivot (t : RawTable) : Except Err Out := do
  requireCol t.hasType "COMPLAINT TYPE"
  requireCol t.hasDept "DEPT"
  requireCol t.hasStatus "CLOSED/OPEN"
  pure (renderColumnsDict "COMPLAINT TYPE"
    (addGTRow (addGTCol "Grand_Total" (deptStatusPivotFlat t.rows))))

/-- The raw-keyed complaint type × (department, status) pivot of lines
313-319 with its grand totals added on the two-level columns (the
grand-total column is the padded tuple `('Grand_Total','')`). -/
def deptStatusRawPivotGT (rows : List RawRow) : PTable (String × String) :=
  addGTRow (addGTCol ("Grand_Total", "")
    (mkPivot rows (fun r => norm r.complaintType)
      (fun r c => decide ((r.dept, r.status) = c))
      (uniqueSorted (rows.map fun r => norm r.complaintType))
      (uniqueSortedBy pairLe (rows.map fun r => (r.dept, r.status)))))

/-- Lines 292-343.  Normalize complaint type only (department and status
group by their raw values); pivot complaint type × (department, status) by
row occurrence; grand totals on the two-level columns; `astype(int)`;
flatten tuples with `'_'.join(col).strip('_')` (line 331, after the totals,
so the grand-total column flattens back to `"Grand_Total"`); `reset_index`;
records dict. -/
def open_close_complaint_report (t : RawTable) : Except Err Out := do
  requireCol t.hasType "COMPLAINT TYPE"
  requireCol t.hasDept "DEPT"
  requireCol t.hasStatus "CLOSED/OPEN"
  pure (renderRecords "COMPLAINT TYPE" Key.str
    (⟨(deptStatusRawPivotGT t.rows).rowKeys,
      (deptStatusRawPivotGT t.rows).colKeys.map
        (fun c => stripUnderscore (c.1 ++ "_" ++ c.2)),
      (deptStatusRawPivotGT t.rows).cells⟩ : PTable String))

/-- The column keys of the three-level pivot: the full product of the six
bucket categories × observed normalized departments × observed normalized
statuses (the `observed=False` groupby reindexes to this product), in
(category order, lexicographic, lexicographic) order. -/
def cubeCols (rows : List RawRow) : List (String × String × String) :=
  ageLabels.flatMap fun b =>
    (uniqueSorted (rows.map fun r => norm r.dept)).flatMap fun d =>
      (uniqueSorted (rows.map fun r => norm r.status)).map fun s => (b, d, s)

/-- The three-level count pivot of lines 270-277: a row is counted in
column `(b, d, s)` iff its age bucket is `b` and its normalized department
and status are `d` and `s`. -/
def cubeMatch (ref : Int) (r : RawRow) (c : String × String × String) : Bool :=
  decide (ageBucket (ageDays ref r) = some c.1) &&
    decide (norm r.dept = c.2.1) && decide (norm r.status = c.2.2)

/-- Lines 243-288.  Parse all dates; normalize complaint type, department
and status; bucket by age; pivot complaint type × (age bucket, department,
status) counting the `SL.NO` column; grand totals; **no** `astype(int)`;
`to_dict(orient='records')` **without** `reset_index`, so the row mappings
carry no complaint-type field and their keys are the unflattened column
tuples (the grand-total column is the padded tuple `('Grand_Total','','')`).
The `observed=False` reindex over the categorical bucket yields the full
product of the six labels × observed normalized departments × observed
normalized statuses as columns (category order, then lexicographic), and
every observed normalized complaint type as a row.  On an empty table the
pivot is a 0×0 frame and the totals produce a single float cell (pandas sums
are float64 on empty input and the integer cast is skipped here), keyed by
the plain string label. -/
def generate_all_agging_complaint_report (ref : Int) (t : RawTable) :
    Except Err Out := do
  requireCol t.hasDate "DATE"
  parseDates t.rows
  requireCol t.hasType "COMPLAINT TYPE"
  requireCol t.hasDept "DEPT"
  requireCol t.hasStatus "CLOSED/OPEN"
  requireCol t.hasSlno "SL.NO"
  if t.rows.isEmpty then
    pure (Out.records [[(Key.str "Grand_Total", Cell.floatVal 0)]])
  else
    pure (renderRecordsNoIndex (fun c => Key.tup [c.1, c.2.1, c.2.2])
      (addGTRow (addGTCol ("Grand_Total", "", "")
        (mkPivot t.rows (fun r => norm r.complaintType) (cubeMatch ref)
          (uniqueSorted (t.rows.map fun r => norm r.complaintType))
          (cubeCols t.rows)))))

/-! ## Observations on serialized reports

Helper accessors used to state the verified properties.  In every
row-record report built by this engine the grand-total column is the last
field of each row and the grand-total row is the last row, so the
extractors below read "the Grand_Total column/row" positionally.
-/

/-- The rows of a records-shaped output (empty for the column-dict shape). -/
def recordRows (o : Out) : List Row :=
  match o with
  | .records rows => rows
  | .columnsDict _ => []

/-- The integer value of a cell (string/float cells read as 0). -/
def cellInt : Cell → Int
  | .intVal n => n
  | _ => 0

/-- The value of the last field of a row — the `Grand_Total` column entry. -/
def rowLastInt (row : Row) : Int :=
  match row.getLast? with
  | some f => cellInt f.2
  | none => 0

/-- Sum of the `Grand_Total` column over the data rows (all rows except the
final `Grand_Total` row). -/
def gtColumnTotal (o : Out) : Int :=
  ((recordRows o).dropLast.map rowLastInt).sum

/-- Sum of the `Grand_Total` row over the data columns (its fields except
the leading index field and the trailing `Grand_Total` field). -/
def gtRowTotal (o : Out) : Int :=
  (((((recordRows o).getLastD []).drop 1).dropLast).map fun f => cellInt f.2).sum

/-- The cell at the intersection of the `Grand_Total` row and column. -/
def gtIntersection (o : Out) : Int :=
  rowLastInt ((recordRows o).getLastD [])

/-- Sum of the `Grand_Total` column over the data rows, for the
column-oriented dict shape of `open_close_complaint_pivot` (field →
positional row label → value): the `Grand_Total` column is the last field
entry, the `Grand_Total` row the last positional label in it. -/
def gtColumnTotalCD (o : Out) : Int :=
  match o with
  | .columnsDict cols =>
      (((cols.getLastD ("", [])).2.dropLast).map fun iv => cellInt iv.2).sum
  | .records _ => 0

/-- Sum of the `Grand_Total` row over the data columns, for the
column-oriented dict shape: the last positional value of each field except
the leading index field and the trailing `Grand_Total` field. -/
def gtRowTotalCD (o : Out) : Int :=
  match o with
  | .columnsDict cols =>
      (((cols.drop 1).dropLast).map fun col =>
        cellInt ((col.2.getLastD (0, Cell.intVal 0)).2)).sum
  | .records _ => 0

/-- The intersection cell of the `Grand_Total` row and column, for the
column-oriented dict shape. -/
def gtIntersectionCD (o : Out) : Int :=
  match o with
  | .columnsDict cols =>
      cellInt (((cols.getLastD ("", [])).2.getLastD (0, Cell.intVal 0)).2)
  | .records _ => 0

/-- Sum of the `Grand_Total` row over the data columns for the no-index
records shape of `generate_all_agging_complaint_report`: its rows carry no
leading index field, so only the trailing `Grand_Total` field is dropped. -/
def gtRowTotalNI (o : Out) : Int :=
  ((((recordRows o).getLastD []).dropLast).map fun f => cellInt f.2).sum

/-- Whether a report came back as an ordered sequence of row mappings. -/
def returnsRecords (e : Except Err Out) : Bool :=
  match e with
  | .ok (.records _) => true
  | _ => false

/-- Whether every row mapping of a records report carries field `k`. -/
def rowsHaveField (k : Key) (e : Except Err Out) : Bool :=
  match e with
  | .ok (.records rows) => rows.all fun row => row.any fun f => decide (f.1 = k)
  | _ => false

/-- The field names of a serialized row, in order. -/
def rowFieldNames (row : Row) : List Key := row.map Prod.fst

/-- The output is an ordered sequence of row mappings that all carry the
same field names: the row-category field first, then string column keys,
then a trailing `Grand_Total` field (the §6 output contract). -/
def uniformRecordFields (idxName : String) (o : Out) : Prop :=
  match o with
  | .records rows => ∃ mids : List String,
      ∀ row ∈ rows, rowFieldNames row =
        Key.str idxName :: (mids.map Key.str ++ [Key.str "Grand_Total"])
  | .columnsDict _ => False

/-- `uniformRecordFields` on the success path of a report call. -/
def uniformRecordsEx (idxName : String) (e : Except Err Out) : Prop :=
  match e with
  | .ok o => uniformRecordFields idxName o
  | .error _ => True

/-- Every cell of the report is integer-typed and non-negative (string
cells are the row labels, not counts). -/
def cellIntNonneg : Cell → Bool
  | .strVal _ => true
  | .intVal n => decide (0 ≤ n)
  | .floatVal _ => false

/-- Non-negative, but tolerating a float-typed (uncast) magnitude. -/
def cellNonneg : Cell → Bool
  | .strVal _ => true
  | .intVal n => decide (0 ≤ n)
  | .floatVal n => decide (0 ≤ n)

/-- All cells of an output satisfy `p`. -/
def outCellsAll (p : Cell → Bool) (o : Out) : Bool :=
  match o with
  | .records rows => rows.all fun row => row.all fun f => p f.2
  | .columnsDict cols => cols.all fun c => c.2.all fun iv => p iv.2

/-- All cells on the success path satisfy `p` (errors return no cells). -/
def exCellsAll (p : Cell → Bool) (e : Except Err Out) : Bool :=
  match e with
  | .ok o => outCellsAll p o
  | .error _ => true

/-- Two rows that differ only cosmetically (surrounding whitespace and/or
letter case) in complaint type, department and status: their normalized
string fields agree and everything else is equal.  (Equality after
`strip().title()` is the code's own criterion for grouping cosmetic
variants together.) -/
def cosmeticEquivRec (r s : RawRow) : Prop :=
  r.slno = s.slno ∧ norm r.complaintType = norm s.complaintType ∧
    norm r.dept = norm s.dept ∧ norm r.status = norm s.status ∧ r.date = s.date

/-- Two rows that differ only cosmetically in the complaint type, all other
fields equal. -/
def ctEquivRec (r s : RawRow) : Prop :=
  r.slno = s.slno ∧ norm r.complaintType = norm s.complaintType ∧
    r.dept = s.dept ∧ r.status = s.status ∧ r.date = s.date

/-! ## Lemmas: sorted distinct keys -/

theorem mem_insSorted (le : κ → κ → Bool) (x a : κ) (l : List κ) :
    a ∈ insSorted le x l ↔ a = x ∨ a ∈ l := by
  induction l with
  | nil => simp [insSorted]
  | cons y ys ih =>
    by_cases h : le x y
    · simp [insSorted, h]
    · simp [insSorted, h, ih]
      tauto

theorem nodup_insSorted (le : κ → κ → Bool) (x : κ) (l : List κ)
    (hx : x ∉ l) (hl : l.Nodup) : (insSorted le x l).Nodup := by
  induction l with
  | nil => simp [insSorted]
  | cons y ys ih =>
    rw [List.nodup_cons] at hl
    by_cases h : le x y
    · rw [insSorted, if_pos h]
      refine List.nodup_cons.mpr ⟨hx, List.nodup_cons.mpr hl⟩
    · rw [insSorted, if_neg h]
      refine List.nodup_cons.mpr ⟨?_, ih (fun hm => hx (List.mem_cons_of_mem _ hm)) hl.2⟩
      intro hmem
      rcases (mem_insSorted le x y ys).mp hmem with h1 | h1
      · exact hx (h1 ▸ List.mem_cons_self _ _)
      · exact hl.1 h1

theorem mem_sortBy (le : κ → κ → Bool) (a : κ) (l : List κ) :
    a ∈ sortBy le l ↔ a ∈ l := by
  induction l with
  | nil => simp [sortBy]
  | cons x xs ih => simp [sortBy, mem_insSorted, ih]

theorem nodup_sortBy (le : κ → κ → Bool) (l : List κ) (hl : l.Nodup) :
    (sortBy le l).Nodup := by
  induction l with
  | nil => simp [sortBy]
  | cons x xs ih =>
    rw [List.nodup_cons] at hl
    exact nodup_insSorted le x _ (fun hm => hl.1 ((mem_sortBy le x xs).mp hm)) (ih hl.2)

theorem mem_dedup [DecidableEq κ] (a : κ) (l : List κ) : a ∈ dedup l ↔ a ∈ l := by
  induction l with
  | nil => simp [dedup]
  | cons x xs ih =>
    by_cases h : x ∈ xs
    · rw [dedup, if_pos h]
      simp only [List.mem_cons, ih]
      constructor
      · exact Or.inr
      · rintro (rfl | h2)
        · exact h
        · exact h2
    · rw [dedup, if_neg h]
      simp [ih]

theorem nodup_dedup [DecidableEq κ] (l : List κ) : (dedup l).Nodup := by
  induction l with
  | nil => simp [dedup]
  | cons x xs ih =>
    by_cases h : x ∈ xs
    · rw [dedup, if_pos h]; exact ih
    · rw [dedup, if_neg h]
      exact List.nodup_cons.mpr ⟨fun hm => h ((mem_dedup x xs).mp hm), ih⟩

theorem mem_uniqueSortedBy [DecidableEq κ] (le : κ → κ → Bool) (a : κ) (l : List κ) :
    a ∈ uniqueSortedBy le l ↔ a ∈ l := by
  rw [uniqueSortedBy, mem_sortBy, mem_dedup]

theorem nodup_uniqueSortedBy [DecidableEq κ] (le : κ → κ → Bool) (l : List κ) :
    (uniqueSortedBy le l).Nodup :=
  nodup_sortBy le _ (nodup_dedup l)

theorem mem_uniqueSorted (a : String) (l : List String) :
    a ∈ uniqueSorted l ↔ a ∈ l := mem_uniqueSortedBy strLe a l

theorem nodup_uniqueSorted (l : List String) : (uniqueSorted l).Nodup :=
  nodup_uniqueSortedBy strLe l

/-! ## Lemmas: counting -/

theorem sum_map_zero (l : List κ) : (l.map fun _ => (0 : Nat)).sum = 0 := by
  induction l with
  | nil => rfl
  | cons a l ih => simp [ih]

theorem sum_map_add (f g : κ → Nat) (l : List κ) :
    (l.map fun x => f x + g x).sum = (l.map f).sum + (l.map g).sum := by
  induction l with
  | nil => rfl
  | cons a l ih => simp [ih]; omega

theorem sum_map_ite_zero [DecidableEq κ] (a : κ) (n : Nat) (l : List κ) (h : a ∉ l) :
    (l.map fun y => if a = y then n else 0).sum = 0 := by
  induction l with
  | nil => rfl
  | cons b l ih =>
    have hab : a ≠ b := fun hh => h (hh ▸ List.mem_cons_self _ _)
    simp only [List.map_cons, List.sum_cons, if_neg hab]
    rw [ih (fun hm => h (List.mem_cons_of_mem _ hm))]

theorem sum_map_ite [DecidableEq κ] (a : κ) (n : Nat) (l : List κ)
    (hl : l.Nodup) (ha : a ∈ l) :
    (l.map fun y => if a = y then n else 0).sum = n := by
  induction l with
  | nil => cases ha
  | cons b l ih =>
    rw [List.nodup_cons] at hl
    rcases List.mem_cons.mp ha with rfl | hmem
    · simp only [List.map_cons, List.sum_cons, if_pos rfl]
      rw [sum_map_ite_zero a n l hl.1]
      simp
    · have hab : a ≠ b := fun hh => hl.1 (hh ▸ hmem)
      simp only [List.map_cons, List.sum_cons, if_neg hab]
      rw [ih hl.2 hmem]
      simp

theorem cellCount_nil (rk : RawRow → String) (m : RawRow → κ → Bool) (r : String) (c : κ) :
    cellCount [] rk m r c = 0 := rfl

theorem cellCount_cons (x : RawRow) (rs : List RawRow) (rk : RawRow → String)
    (m : RawRow → κ → Bool) (r : String) (c : κ) :
    cellCount (x :: rs) rk m r c =
      (if rk x = r then (if m x c then 1 else 0) else 0) + cellCount rs rk m r c := by
  rw [cellCount, List.filter_cons, cellCount]
  by_cases h1 : rk x = r <;> by_cases h2 : m x c <;> simp [h1, h2] <;> omega

/-- The partition property of a count pivot: summing the cells over
duplicate-free row keys that cover every row key of the data, with columns
matching each row exactly once — or exactly `q`-many times, `q` boolean —
gives the number of `q`-rows of the data. -/
theorem sum_cells (rs : List RawRow) (rk : RawRow → String) (m : RawRow → κ → Bool)
    (rowKeys : List String) (colKeys : List κ) (q : RawRow → Bool)
    (hr : rowKeys.Nodup)
    (hcover : ∀ x ∈ rs, rk x ∈ rowKeys)
    (hq : ∀ x ∈ rs, (colKeys.map fun c => if m x c then (1 : Nat) else 0).sum
            = if q x then 1 else 0) :
    (rowKeys.map fun r => (colKeys.map fun c => cellCount rs rk m r c).sum).sum
      = (rs.filter q).length := by
  induction rs with
  | nil =>
    simp only [cellCount_nil, List.filter_nil, List.length_nil]
    rw [show (rowKeys.map fun r => (colKeys.map fun _ => (0 : Nat)).sum)
          = rowKeys.map fun _ => (0 : Nat) from by
        refine List.map_congr_left ?_
        intro r _
        exact sum_map_zero colKeys]
    exact sum_map_zero rowKeys
  | cons x rs ih =>
    have hx : rk x ∈ rowKeys := hcover x (List.mem_cons_self _ _)
    have step : ∀ r, (colKeys.map fun c => cellCount (x :: rs) rk m r c).sum
        = (if rk x = r then (if q x then 1 else 0) else 0)
          + (colKeys.map fun c => cellCount rs rk m r c).sum := by
      intro r
      calc (colKeys.map fun c => cellCount (x :: rs) rk m r c).sum
          = (colKeys.map fun c =>
              (if rk x = r then (if m x c then 1 else 0) else 0)
                + cellCount rs rk m r c).sum := by
            refine congrArg List.sum (List.map_congr_left ?_)
            intro c _
            exact cellCount_cons x rs rk m r c
        _ = (colKeys.map fun c =>
              (if rk x = r then (if m x c then (1 : Nat) else 0) else 0)).sum
                + (colKeys.map fun c => cellCount rs rk m r c).sum :=
            sum_map_add _ _ colKeys
        _ = (if rk x = r then (if q x then 1 else 0) else 0)
                + (colKeys.map fun c => cellCount rs rk m r c).sum := by
            congr 1
            by_cases h : rk x = r
            · simp only [if_pos h]
              exact hq x (List.mem_cons_self _ _)
            · simp only [if_neg h]
              exact sum_map_zero colKeys
    calc (rowKeys.map fun r => (colKeys.map fun c => cellCount (x :: rs) rk m r c).sum).sum
        = (rowKeys.map fun r =>
            (if rk x = r then (if q x then 1 else 0) else 0)
              + (colKeys.map fun c => cellCount rs rk m r c).sum).sum := by
          exact congrArg List.sum (List.map_congr_left fun r _ => step r)
      _ = (rowKeys.map fun r => if rk x = r then (if q x then 1 else 0) else 0).sum
            + (rowKeys.map fun r => (colKeys.map fun c => cellCount rs rk m r c).sum).sum :=
          sum_map_add _ _ rowKeys
      _ = (if q x then 1 else 0) + (rs.filter q).length := by
          rw [sum_map_ite (rk x) _ rowKeys hr hx,
            ih (fun y hy => hcover y (List.mem_cons_of_mem _ hy))
              (fun y hy => hq y (List.mem_cons_of_mem _ hy))]
      _ = ((x :: rs).filter q).length := by
          rw [List.filter_cons]
          by_cases h : q x <;> simp [h] <;> omega

/-! ## Lemmas: column-wise sums (`pivot.sum(axis=0)`) -/

theorem sum_zipWith_add (a b : List Nat) (h : a.length = b.length) :
    (List.zipWith (· + ·) a b).sum = a.sum + b.sum := by
  induction a generalizing b with
  | nil =>
    cases b with
    | nil => rfl
    | cons y ys => simp at h
  | cons x xs ih =>
    cases b with
    | nil => simp at h
    | cons y ys =>
      simp only [List.zipWith_cons_cons, List.sum_cons]
      rw [ih ys (by simpa using h)]
      omega

theorem zipWith_length_eq (a b : List Nat) (h : a.length = b.length) :
    (List.zipWith (· + ·) a b).length = a.length := by
  simp [List.length_zipWith, h]

theorem foldr_zipWith_length (rows : List (List Nat)) (n : Nat)
    (h : ∀ r ∈ rows, r.length = n) :
    (rows.foldr (List.zipWith (· + ·)) (List.replicate n 0)).length = n := by
  induction rows with
  | nil => simp
  | cons r rows ih =>
    simp only [List.foldr_cons]
    rw [zipWith_length_eq, h r (List.mem_cons_self _ _)]
    rw [h r (List.mem_cons_self _ _), ih (fun s hs => h s (List.mem_cons_of_mem _ hs))]

theorem foldr_zipWith_sum (rows : List (List Nat)) (n : Nat)
    (h : ∀ r ∈ rows, r.length = n) :
    (rows.foldr (List.zipWith (· + ·)) (List.replicate n 0)).sum
      = (rows.map List.sum).sum := by
  induction rows with
  | nil => simp
  | cons r rows ih =>
    simp only [List.foldr_cons, List.map_cons, List.sum_cons]
    rw [sum_zipWith_add _ _ (by
      rw [h r (List.mem_cons_self _ _),
        foldr_zipWith_length rows n (fun s hs => h s (List.mem_cons_of_mem _ hs))]),
      ih (fun s hs => h s (List.mem_cons_of_mem _ hs))]

/-- Column sums of a matrix whose rows carry an appended extra entry:
they split into the column sums of the core and the sum of the extras. -/
theorem foldr_zipWith_concat (rows : List (List Nat)) (g : List Nat → Nat) (n : Nat)
    (h : ∀ r ∈ rows, r.length = n) :
    ((rows.map fun r => r ++ [g r]).foldr (List.zipWith (· + ·))
        (List.replicate (n + 1) 0))
      = (rows.foldr (List.zipWith (· + ·)) (List.replicate n 0))
          ++ [(rows.map g).sum] := by
  induction rows with
  | nil => simp [List.replicate_succ']
  | cons r rows ih =>
    simp only [List.map_cons, List.foldr_cons, List.sum_cons]
    rw [ih (fun s hs => h s (List.mem_cons_of_mem _ hs))]
    rw [List.zipWith_append _ _ _ _ _ (by
      rw [h r (List.mem_cons_self _ _),
        foldr_zipWith_length rows n (fun s hs => h s (List.mem_cons_of_mem _ hs))])]
    simp

theorem sum_map_natCast (l : List Nat) :
    (l.map fun v : Nat => (v : Int)).sum = (l.sum : Int) := by
  induction l with
  | nil => rfl
  | cons x xs ih =>
    rw [List.map_cons, List.sum_cons, ih, List.sum_cons]
    push_cast
    ring

/-! ## Lemmas: shape of the grand-total augmentation -/

theorem zip_concat (a : κ) (b : β) (l₁ : List κ) (l₂ : List β)
    (h : l₁.length = l₂.length) :
    (l₁ ++ [a]).zip (l₂ ++ [b]) = l₁.zip l₂ ++ [(a, b)] := by
  simp [List.zip_append h]

theorem addGTCol_of_not_mem [DecidableEq κ] (gtKey : κ) (p : PTable κ)
    (h : gtKey ∉ p.colKeys) :
    addGTCol gtKey p =
      ⟨p.rowKeys, p.colKeys ++ [gtKey], p.cells.map fun row => row ++ [row.sum]⟩ := by
  rw [addGTCol, if_neg h]

theorem addGTRow_of_not_mem (p : PTable κ) (h : "Grand_Total" ∉ p.rowKeys) :
    addGTRow p =
      ⟨p.rowKeys ++ ["Grand_Total"], p.colKeys,
        p.cells ++ [p.cells.foldr (List.zipWith (· + ·))
          (List.replicate p.colKeys.length 0)]⟩ := by
  rw [addGTRow, if_neg h]

/-- The fully augmented pivot, explicitly: data rows with their row sums
appended, a final row of column sums, whose own last entry is the grand
total of all row sums. -/
theorem pivot_report_shape [DecidableEq κ] (rs : List RawRow) (rk : RawRow → String)
    (m : RawRow → κ → Bool) (rowKeys : List String) (colKeys : List κ) (gtKey : κ)
    (hgr : "Grand_Total" ∉ rowKeys) (hgc : gtKey ∉ colKeys) :
    addGTRow (addGTCol gtKey (mkPivot rs rk m rowKeys colKeys)) =
      ⟨rowKeys ++ ["Grand_Total"], colKeys ++ [gtKey],
        ((rowKeys.map fun r => ((colKeys.map fun c => cellCount rs rk m r c),
            (colKeys.map fun c => cellCount rs rk m r c).sum)).map fun rc => rc.1 ++ [rc.2])
          ++ [((rowKeys.map fun r => colKeys.map fun c => cellCount rs rk m r c).foldr
                (List.zipWith (· + ·)) (List.replicate colKeys.length 0))
              ++ [((rowKeys.map fun r =>
                    (colKeys.map fun c => cellCount rs rk m r c).sum)).sum]]⟩ := by
  rw [mkPivot, addGTCol_of_not_mem gtKey _ hgc, addGTRow_of_not_mem _ hgr]
  refine congrArg (PTable.mk _ _) ?_
  simp only [List.map_map]
  congr 1
  · rw [show List.map ((fun row => row ++ [row.sum]) ∘ fun r =>
        List.map (fun c => cellCount rs rk m r c) colKeys) rowKeys
      = List.map (fun row => row ++ [row.sum])
          (rowKeys.map fun r => List.map (fun c => cellCount rs rk m r c) colKeys)
      from (List.map_map _ _ _).symm]
    rw [show (colKeys ++ [gtKey]).length = colKeys.length + 1 from by simp]
    rw [foldr_zipWith_concat _ List.sum colKeys.length
      (by intro r hr; rcases List.mem_map.mp hr with ⟨a, _, rfl⟩; simp)]
    rw [List.map_map]
    rfl

theorem rowLastInt_concat (l : Row) (f : Key × Cell) :
    rowLastInt (l ++ [f]) = cellInt f.2 := by
  rw [rowLastInt, List.getLast?_concat]

/-- The canonical form of a rendered report whose pivot has the explicit
shape produced by `pivot_report_shape`: each data row is rendered as
(index field :: data fields) ++ [grand-total field], and the grand-total
row follows last. -/
theorem renderRecords_shape [DecidableEq κ] (idx : String) (showCol : κ → Key)
    (rowKeys : List String) (colKeys : List κ) (gtKey : κ)
    (dataCells : List (List Nat × Nat)) (gtVec : List Nat) (grand : Nat)
    (hlen : rowKeys.length = dataCells.length)
    (hrows : ∀ rc ∈ dataCells, rc.1.length = colKeys.length)
    (hvec : gtVec.length = colKeys.length) :
    renderRecords idx showCol
        ⟨rowKeys ++ ["Grand_Total"], colKeys ++ [gtKey],
          (dataCells.map fun rc => rc.1 ++ [rc.2]) ++ [gtVec ++ [grand]]⟩
      = .records (
          ((rowKeys.zip dataCells).map fun p =>
            ((Key.str idx, Cell.strVal p.1) ::
              (colKeys.zip p.2.1).map fun cv : κ × Nat => (showCol cv.1, Cell.intVal (cv.2 : Int)))
            ++ [(showCol gtKey, Cell.intVal (p.2.2 : Int))])
          ++ [((Key.str idx, Cell.strVal "Grand_Total") ::
                (colKeys.zip gtVec).map fun cv : κ × Nat => (showCol cv.1, Cell.intVal (cv.2 : Int)))
              ++ [(showCol gtKey, Cell.intVal (grand : Int))]]) := by
  rw [renderRecords]
  rw [show ((⟨rowKeys ++ ["Grand_Total"], colKeys ++ [gtKey],
      (dataCells.map fun rc => rc.1 ++ [rc.2]) ++ [gtVec ++ [grand]]⟩ : PTable κ)).rowKeys
    = rowKeys ++ ["Grand_Total"] from rfl]
  rw [show ((⟨rowKeys ++ ["Grand_Total"], colKeys ++ [gtKey],
      (dataCells.map fun rc => rc.1 ++ [rc.2]) ++ [gtVec ++ [grand]]⟩ : PTable κ)).cells
    = (dataCells.map fun rc => rc.1 ++ [rc.2]) ++ [gtVec ++ [grand]] from rfl]
  rw [zip_concat _ _ _ _ (by simp [hlen])]
  rw [List.map_append, List.map_singleton]
  refine congrArg Out.records (congrArg₂ (· ++ ·) ?_ ?_)
  · rw [List.zip_map_right, List.map_map]
    refine List.map_congr_left ?_
    intro p hp
    have hmem : p.2 ∈ dataCells := (List.of_mem_zip hp).2
    simp only [Function.comp, Prod.map, id]
    rw [zip_concat _ _ _ _ (hrows p.2 hmem).symm, List.map_append, List.map_singleton]
    simp
  · rw [zip_concat _ _ _ _ hvec.symm, List.map_append, List.map_singleton]
    simp

/-- The `Grand_Total` column summed over data rows, on the canonical form:
it is the sum of the per-row grand totals. -/
theorem gtColumnTotal_canonical [DecidableEq κ] (idx : String) (showCol : κ → Key)
    (gtKey : κ) (colKeys : List κ) (rowKeys : List String)
    (dataCells : List (List Nat × Nat)) (gtVec : List Nat) (grand : Nat)
    (hlen : rowKeys.length = dataCells.length) :
    gtColumnTotal (.records (
        ((rowKeys.zip dataCells).map fun p =>
          ((Key.str idx, Cell.strVal p.1) ::
            (colKeys.zip p.2.1).map fun cv : κ × Nat => (showCol cv.1, Cell.intVal (cv.2 : Int)))
          ++ [(showCol gtKey, Cell.intVal (p.2.2 : Int))])
        ++ [((Key.str idx, Cell.strVal "Grand_Total") ::
              (colKeys.zip gtVec).map fun cv : κ × Nat => (showCol cv.1, Cell.intVal (cv.2 : Int)))
            ++ [(showCol gtKey, Cell.intVal (grand : Int))]]))
      = (dataCells.map fun rc => (rc.2 : Int)).sum := by
  rw [gtColumnTotal, recordRows, List.dropLast_concat, List.map_map]
  rw [List.map_congr_left (g := fun p : String × (List Nat × Nat) => (p.2.2 : Int))
    (by intro p _
        simp only [Function.comp]
        rw [rowLastInt_concat]
        rfl)]
  rw [show (fun p : String × (List Nat × Nat) => (p.2.2 : Int))
      = (fun rc : List Nat × Nat => (rc.2 : Int)) ∘ Prod.snd from rfl]
  rw [← List.map_map, List.map_snd_zip _ _ (le_of_eq hlen.symm)]

/-- The `Grand_Total` row summed over data columns, on the canonical form:
it is the sum of the column-sum vector. -/
theorem gtRowTotal_canonical [DecidableEq κ] (idx : String) (showCol : κ → Key)
    (gtKey : κ) (colKeys : List κ) (rowKeys : List String)
    (dataCells : List (List Nat × Nat)) (gtVec : List Nat) (grand : Nat)
    (hvec : gtVec.length = colKeys.length) :
    gtRowTotal (.records (
        ((rowKeys.zip dataCells).map fun p =>
          ((Key.str idx, Cell.strVal p.1) ::
            (colKeys.zip p.2.1).map fun cv : κ × Nat => (showCol cv.1, Cell.intVal (cv.2 : Int)))
          ++ [(showCol gtKey, Cell.intVal (p.2.2 : Int))])
        ++ [((Key.str idx, Cell.strVal "Grand_Total") ::
              (colKeys.zip gtVec).map fun cv : κ × Nat => (showCol cv.1, Cell.intVal (cv.2 : Int)))
            ++ [(showCol gtKey, Cell.intVal (grand : Int))]]))
      = (gtVec.sum : Int) := by
  rw [gtRowTotal, recordRows, List.getLastD_concat]
  rw [List.cons_append, List.drop_succ_cons, List.drop_zero, List.dropLast_concat,
    List.map_map]
  rw [List.map_congr_left (g := fun cv : κ × Nat => (cv.2 : Int))
    (by intro cv _; rfl)]
  rw [show (fun cv : κ × Nat => (cv.2 : Int))
      = (fun v : Nat => (v : Int)) ∘ Prod.snd from rfl]
  rw [← List.map_map, List.map_snd_zip _ _ (le_of_eq hvec), sum_map_natCast]

/-- The intersection of the `Grand_Total` row and column, on the canonical
form: it is the grand total. -/
theorem gtIntersection_canonical [DecidableEq κ] (idx : String) (showCol : κ → Key)
    (gtKey : κ) (colKeys : List κ) (rowKeys : List String)
    (dataCells : List (List Nat × Nat)) (gtVec : List Nat) (grand : Nat) :
    gtIntersection (.records (
        ((rowKeys.zip dataCells).map fun p =>
          ((Key.str idx, Cell.strVal p.1) ::
            (colKeys.zip p.2.1).map fun cv : κ × Nat => (showCol cv.1, Cell.intVal (cv.2 : Int)))
          ++ [(showCol gtKey, Cell.intVal (p.2.2 : Int))])
        ++ [((Key.str idx, Cell.strVal "Grand_Total") ::
              (colKeys.zip gtVec).map fun cv : κ × Nat => (showCol cv.1, Cell.intVal (cv.2 : Int)))
            ++ [(showCol gtKey, Cell.intVal (grand : Int))]]))
      = (grand : Int) := by
  rw [gtIntersection, recordRows, List.getLastD_concat, rowLastInt_concat]
  rfl

/-- The grand-total invariant of a count pivot, generically: when the row
keys are duplicate-free, neither axis already carries the grand-total
label, every data row's key is covered, and each data row matches either
exactly one column (`q` it) or none (`q` it not), then the rendered report
satisfies: the `Grand_Total` column summed over data rows, the
`Grand_Total` row summed over data columns, and their intersection cell
all equal the number of `q`-rows. -/
theorem pivot_gt_invariant [DecidableEq κ] (idx : String) (showCol : κ → Key)
    (rs : List RawRow) (rk : RawRow → String) (m : RawRow → κ → Bool)
    (rowKeys : List String) (colKeys : List κ) (gtKey : κ) (q : RawRow → Bool)
    (hr : rowKeys.Nodup)
    (hgr : "Grand_Total" ∉ rowKeys) (hgc : gtKey ∉ colKeys)
    (hcover : ∀ x ∈ rs, rk x ∈ rowKeys)
    (hq : ∀ x ∈ rs, (colKeys.map fun c => if m x c then (1 : Nat) else 0).sum
            = if q x then 1 else 0) :
    gtColumnTotal (renderRecords idx showCol
        (addGTRow (addGTCol gtKey (mkPivot rs rk m rowKeys colKeys))))
      = ((rs.filter q).length : Int) ∧
    gtRowTotal (renderRecords idx showCol
        (addGTRow (addGTCol gtKey (mkPivot rs rk m rowKeys colKeys))))
      = ((rs.filter q).length : Int) ∧
    gtIntersection (renderRecords idx showCol
        (addGTRow (addGTCol gtKey (mkPivot rs rk m rowKeys colKeys))))
      = ((rs.filter q).length : Int) := by
  have hcells : ∀ row ∈ rowKeys.map fun r => colKeys.map fun c => cellCount rs rk m r c,
      row.length = colKeys.length := by
    intro row hrow
    rcases List.mem_map.mp hrow with ⟨a, _, rfl⟩
    simp
  have hvec : ((rowKeys.map fun r => colKeys.map fun c => cellCount rs rk m r c).foldr
      (List.zipWith (· + ·)) (List.replicate colKeys.length 0)).length = colKeys.length :=
    foldr_zipWith_length _ _ hcells
  have hN : (rowKeys.map fun r => (colKeys.map fun c => cellCount rs rk m r c).sum).sum
      = (rs.filter q).length := sum_cells rs rk m rowKeys colKeys q hr hcover hq
  rw [pivot_report_shape rs rk m rowKeys colKeys gtKey hgr hgc]
  rw [renderRecords_shape idx showCol rowKeys colKeys gtKey
    (rowKeys.map fun r => ((colKeys.map fun c => cellCount rs rk m r c),
      (colKeys.map fun c => cellCount rs rk m r c).sum))
    ((rowKeys.map fun r => colKeys.map fun c => cellCount rs rk m r c).foldr
      (List.zipWith (· + ·)) (List.replicate colKeys.length 0))
    ((rowKeys.map fun r => (colKeys.map fun c => cellCount rs rk m r c).sum).sum)
    (by simp)
    (by intro rc hrc
        rcases List.mem_map.mp hrc with ⟨a, _, rfl⟩
        simp)
    hvec]
  refine ⟨?_, ?_, ?_⟩
  · rw [gtColumnTotal_canonical _ _ _ _ _ _ _ _ (by simp)]
    rw [List.map_map]
    rw [show ((fun rc : List Nat × Nat => (rc.2 : Int)) ∘ fun r =>
        ((colKeys.map fun c => cellCount rs rk m r c),
          (colKeys.map fun c => cellCount rs rk m r c).sum))
      = (fun v : Nat => (v : Int)) ∘ fun r =>
          (colKeys.map fun c => cellCount rs rk m r c).sum from rfl]
    rw [← List.map_map, sum_map_natCast, hN]
  · rw [gtRowTotal_canonical _ _ _ _ _ _ _ _ hvec]
    rw [foldr_zipWith_sum _ _ hcells, List.map_map]
    rw [show (List.sum ∘ fun r => colKeys.map fun c => cellCount rs rk m r c)
        = fun r => (colKeys.map fun c => cellCount rs rk m r c).sum from rfl]
    rw [hN]
  · rw [gtIntersection_canonical, hN]

/-! ## Lemmas: the success paths of the report functions -/

theorem open_complaint_pivot_ok (rows : List RawRow) :
    open_complaint_pivot (table rows)
      = .ok (renderRecords "COMPLAINT TYPE" Key.str
          (addGTRow (addGTCol "Grand_Total"
            (mkPivot (openRows (table rows)) (·.complaintType)
              (fun r c => decide (r.dept = c))
              (uniqueSorted ((openRows (table rows)).map (·.complaintType)))
              (uniqueSorted ((openRows (table rows)).map (·.dept))))))) := rfl

theorem parseDates_ok (rs : List RawRow) (h : ∀ r ∈ rs, r.date.isSome) :
    parseDates rs = .ok () := by
  rw [parseDates, if_neg]
  simp only [List.any_eq_true, not_exists, not_and]
  intro r hmem
  have hsome := h r hmem
  cases hd : r.date with
  | none => rw [hd] at hsome; simp at hsome
  | some d => simp [hd]

theorem agging_open_pivot_dict_ok (ref : Int) (rows : List RawRow)
    (hparse : ∀ r ∈ openRows (table rows), r.date.isSome)
    (hne : openRows (table rows) ≠ []) :
    agging_open_pivot_dict ref (table rows)
      = .ok (renderRecords "COMPLAINT TYPE" Key.str
          (addGTRow (addGTCol "Grand_Total"
            (agingPivot ref
              (uniqueSorted ((openRows (table rows)).map fun r => norm r.complaintType))
              (openRows (table rows)))))) := by
  have hp : parseDates (openRows (table rows)) = .ok () := parseDates_ok _ hparse
  have he : (openRows (table rows)).isEmpty = false := by
    simpa [List.isEmpty_iff] using hne
  rw [agging_open_pivot_dict]
  simp only [show (table rows).hasStatus = true from rfl,
    show (table rows).hasDate = true from rfl,
    show (table rows).hasType = true from rfl, requireCol, if_true, hp, he]
  rfl

theorem agging_open_close_pivot_dict_ok (ref : Int) (rows : List RawRow)
    (hparse : ∀ r ∈ rows, r.date.isSome)
    (hne : rows ≠ []) :
    agging_open_close_pivot_dict ref (table rows)
      = .ok (renderRecords "COMPLAINT TYPE" Key.str
          (addGTRow (addGTCol "Grand_Total"
            (agingPivot ref
              (uniqueSorted (rows.map fun r => norm r.complaintType)) rows)))) := by
  have hp : parseDates ((table rows).rows) = .ok () :=
    parseDates_ok _ (fun r hr => hparse r hr)
  have he : ((table rows).rows).isEmpty = false := by
    simpa [List.isEmpty_iff] using hne
  rw [agging_open_close_pivot_dict]
  simp only [show (table rows).hasStatus = true from rfl,
    show (table rows).hasDate = true from rfl,
    show (table rows).hasType = true from rfl, requireCol, if_true, hp, he]
  rfl

theorem open_close_complaint_report_ok (rows : List RawRow) :
    open_close_complaint_report (table rows)
      = .ok (renderRecords "COMPLAINT TYPE" Key.str
          (⟨(deptStatusRawPivotGT rows).rowKeys,
            (deptStatusRawPivotGT rows).colKeys.map
              (fun c => stripUnderscore (c.1 ++ "_" ++ c.2)),
            (deptStatusRawPivotGT rows).cells⟩ : PTable String)) := rfl

theorem dates_isSome_of_any_false (rs : List RawRow)
    (hp : (rs.any fun r => r.date.isNone) = false) :
    ∀ r ∈ rs, r.date.isSome := by
  intro r hr
  cases hd : r.date with
  | some d => rfl
  | none =>
    exfalso
    have : rs.any (fun r => r.date.isNone) = true :=
      List.any_eq_true.mpr ⟨r, hr, by rw [hd]; rfl⟩
    rw [this] at hp
    cases hp

theorem generate_all_agging_complaint_report_ok (ref : Int) (rows : List RawRow)
    (hparse : ∀ r ∈ rows, r.date.isSome) (hne : rows ≠ []) :
    generate_all_agging_complaint_report ref (table rows)
      = .ok (renderRecordsNoIndex (fun c => Key.tup [c.1, c.2.1, c.2.2])
          (addGTRow (addGTCol ("Grand_Total", "", "")
            (mkPivot rows (fun r => norm r.complaintType) (cubeMatch ref)
              (uniqueSorted (rows.map fun r => norm r.complaintType))
              (cubeCols rows))))) := by
  have hp : parseDates ((table rows).rows) = .ok () :=
    parseDates_ok _ (fun r hr => hparse r hr)
  have he : ((table rows).rows).isEmpty = false := by
    simpa [List.isEmpty_iff] using hne
  rw [generate_all_agging_complaint_report]
  simp only [show (table rows).hasDate = true from rfl,
    show (table rows).hasType = true from rfl,
    show (table rows).hasDept = true from rfl,
    show (table rows).hasStatus = true from rfl,
    show (table rows).hasSlno = true from rfl, requireCol, if_true, hp, he]
  rfl

/-! ## Lemmas: age buckets -/

theorem ageLabels_nodup : ageLabels.Nodup := by decide

theorem ageBucket_mem (a : Int) (l : String) (h : ageBucket a = some l) :
    l ∈ ageLabels := by
  rw [ageBucket] at h
  repeat' split at h
  all_goals simp_all [ageLabels]

theorem ageBucket_neg (a : Int) (h : a < 0) : ageBucket a = none := by
  rw [ageBucket, if_pos h]

/-- Each considered row matches exactly one bucket column when its bucket
is assigned, and none otherwise. -/
theorem bucket_match_count (ref : Int) (x : RawRow) :
    (ageLabels.map fun lbl =>
        if decide (ageBucket (ageDays ref x) = some lbl) then (1 : Nat) else 0).sum
      = if (ageBucket (ageDays ref x)).isSome then 1 else 0 := by
  cases hb : ageBucket (ageDays ref x) with
  | none =>
    rw [show (ageLabels.map fun lbl =>
        if decide ((none : Option String) = some lbl) then (1 : Nat) else 0)
      = ageLabels.map fun _ => (0 : Nat) from by
        refine List.map_congr_left ?_
        intro lbl _
        simp]
    rw [sum_map_zero]
    rfl
  | some l =>
    have hl : l ∈ ageLabels := ageBucket_mem _ _ hb
    rw [show (ageLabels.map fun lbl =>
        if decide ((some l : Option String) = some lbl) then (1 : Nat) else 0)
      = ageLabels.map fun lbl => if l = lbl then (1 : Nat) else 0 from by
        refine List.map_congr_left ?_
        intro lbl _
        simp]
    rw [sum_map_ite l 1 ageLabels ageLabels_nodup hl]
    rfl

/-! ## C1: the grand-total invariant -/

/-- Helper: the number of rows counted by the open-complaint pivot is the
size of the Open-filtered set. -/
theorem open_pivot_invariant (rows : List RawRow)
    (h1 : "Grand_Total" ∉ (openRows (table rows)).map (·.complaintType))
    (h2 : "Grand_Total" ∉ (openRows (table rows)).map (·.dept)) :
    (open_complaint_pivot (table rows)).map gtColumnTotal
        = .ok ((openRows (table rows)).length : Int) ∧
    (open_complaint_pivot (table rows)).map gtRowTotal
        = .ok ((openRows (table rows)).length : Int) ∧
    (open_complaint_pivot (table rows)).map gtIntersection
        = .ok ((openRows (table rows)).length : Int) := by
  have hinv := pivot_gt_invariant "COMPLAINT TYPE" Key.str
    (openRows (table rows)) (·.complaintType) (fun r c => decide (r.dept = c))
    (uniqueSorted ((openRows (table rows)).map (·.complaintType)))
    (uniqueSorted ((openRows (table rows)).map (·.dept)))
    "Grand_Total" (fun _ => true)
    (nodup_uniqueSorted _)
    (fun hm => h1 ((mem_uniqueSorted _ _).mp hm))
    (fun hm => h2 ((mem_uniqueSorted _ _).mp hm))
    (fun x hx => (mem_uniqueSorted _ _).mpr (List.mem_map_of_mem _ hx))
    (by
      intro x hx
      rw [show ((uniqueSorted ((openRows (table rows)).map (·.dept))).map fun c =>
            if decide (x.dept = c) then (1 : Nat) else 0)
          = (uniqueSorted ((openRows (table rows)).map (·.dept))).map fun c =>
            if x.dept = c then (1 : Nat) else 0 from by
        refine List.map_congr_left ?_
        intro c _
        simp]
      rw [sum_map_ite x.dept 1 _ (nodup_uniqueSorted _)
        ((mem_uniqueSorted _ _).mpr (List.mem_map_of_mem _ hx))]
      rfl)
  rw [open_complaint_pivot_ok]
  have hflt : ((openRows (table rows)).filter fun _ => true) = openRows (table rows) :=
    List.filter_true _
  rw [hflt] at hinv
  refine ⟨?_, ?_, ?_⟩
  · simp only [Except.map]
    exact congrArg Except.ok hinv.1
  · simp only [Except.map]
    exact congrArg Except.ok hinv.2.1
  · simp only [Except.map]
    exact congrArg Except.ok hinv.2.2

set_option maxHeartbeats 1000000 in
/-- Helper: grand-total invariant for an aging pivot over a considered row
set: the totals equal the number of rows that received an age bucket. -/
theorem aging_pivot_invariant (ref : Int) (counted : List RawRow)
    (hgr : "Grand_Total" ∉ counted.map fun r => norm r.complaintType) :
    gtColumnTotal (renderRecords "COMPLAINT TYPE" Key.str
        (addGTRow (addGTCol "Grand_Total"
          (agingPivot ref (uniqueSorted (counted.map fun r => norm r.complaintType)) counted))))
      = ((counted.filter fun r => (ageBucket (ageDays ref r)).isSome).length : Int) ∧
    gtRowTotal (renderRecords "COMPLAINT TYPE" Key.str
        (addGTRow (addGTCol "Grand_Total"
          (agingPivot ref (uniqueSorted (counted.map fun r => norm r.complaintType)) counted))))
      = ((counted.filter fun r => (ageBucket (ageDays ref r)).isSome).length : Int) ∧
    gtIntersection (renderRecords "COMPLAINT TYPE" Key.str
        (addGTRow (addGTCol "Grand_Total"
          (agingPivot ref (uniqueSorted (counted.map fun r => norm r.complaintType)) counted))))
      = ((counted.filter fun r => (ageBucket (ageDays ref r)).isSome).length : Int) := by
  rw [agingPivot]
  have h := pivot_gt_invariant "COMPLAINT TYPE" Key.str counted
    (fun r => norm r.complaintType)
    (fun r lbl => decide (ageBucket (ageDays ref r) = some lbl))
    (uniqueSorted (counted.map fun r => norm r.complaintType)) ageLabels
    "Grand_Total" (fun r => (ageBucket (ageDays ref r)).isSome)
    (nodup_uniqueSorted _)
    (fun hm => hgr ((mem_uniqueSorted _ _).mp hm))
    (by decide)
    (fun x hx => (mem_uniqueSorted _ _).mpr (List.mem_map_of_mem _ hx))
    (fun x _ => bucket_match_count ref x)
  exact ⟨h.1, h.2.1, h.2.2⟩

/-! ## C2: age bucket boundaries -/

/-- **C2**.  The bucket assigned by every aging report (all three aging
functions bucket via `ageBucket`, the embedding of their shared
`pd.cut(..., bins=[0,15,30,60,90,180,inf], right=True, include_lowest=True)`
call): ages in `[0,15]` fall in `<15Days`, `(15,30]` in `16-30Days`,
`(30,60]` in `31-60Days`, `(60,90]` in `61-90Days`, `(90,180]` in
`91-180Days` and `(180,∞)` in `>180Days`; in particular the boundary ages
15, 16, 180, 181 and a record filed today (age 0) land as the spec says. -/
theorem C2_age_bucket_boundaries (a : Int) :
    (0 ≤ a → a ≤ 15 → ageBucket a = some "<15Days") ∧
    (15 < a → a ≤ 30 → ageBucket a = some "16-30Days") ∧
    (30 < a → a ≤ 60 → ageBucket a = some "31-60Days") ∧
    (60 < a → a ≤ 90 → ageBucket a = some "61-90Days") ∧
    (90 < a → a ≤ 180 → ageBucket a = some "91-180Days") ∧
    (180 < a → ageBucket a = some ">180Days") := by
  refine ⟨?_, ?_, ?_, ?_, ?_, ?_⟩
  all_goals intros
  all_goals unfold ageBucket
  all_goals split_ifs
  all_goals first
    | rfl
    | omega

/-- **C2** witness: the five boundary instances named by the claim. -/
theorem C2_witness :
    ageBucket 0 = some "<15Days" ∧ ageBucket 15 = some "<15Days" ∧
    ageBucket 16 = some "16-30Days" ∧ ageBucket 180 = some "91-180Days" ∧
    ageBucket 181 = some ">180Days" :=
  ⟨(C2_age_bucket_boundaries 0).1 (by decide) (by decide),
   (C2_age_bucket_boundaries 15).1 (by decide) (by decide),
   (C2_age_bucket_boundaries 16).2.1 (by decide) (by decide),
   (C2_age_bucket_boundaries 180).2.2.2.2.1 (by decide) (by decide),
   (C2_age_bucket_boundaries 181).2.2.2.2.2 (by decide)⟩

/-! ## C3: the end-to-end scenario -/

/-- **C3**.  On the four-record scenario table (dates relative to
reference day 1000; `open_complaint_pivot` never reads the dates), the
report has exactly the three rows the spec demands — Leak: Water=2,
Grand_Total=2; Road: Roads=1, Grand_Total=1; Grand_Total: Water=2,
Roads=1, Grand_Total=3 — the Closed record (and its department, Sewer)
excluded; the remaining cells of the complaint-type × department grid are
zero-filled, and columns appear in pandas' sorted order. -/
theorem C3_end_to_end_scenario :
    open_complaint_pivot (table [mkRow 1 "Leak" "Water" "Open" 1000,
        mkRow 2 "Leak" "Water" "Open" 980, mkRow 3 "Leak" "Sewer" "Closed" 900,
        mkRow 4 "Road" "Roads" "Open" 995])
      = .ok (.records [
          [(.str "COMPLAINT TYPE", .strVal "Leak"), (.str "Roads", .intVal 0),
           (.str "Water", .intVal 2), (.str "Grand_Total", .intVal 2)],
          [(.str "COMPLAINT TYPE", .strVal "Road"), (.str "Roads", .intVal 1),
           (.str "Water", .intVal 0), (.str "Grand_Total", .intVal 1)],
          [(.str "COMPLAINT TYPE", .strVal "Grand_Total"), (.str "Roads", .intVal 1),
           (.str "Water", .intVal 2), (.str "Grand_Total", .intVal 3)]]) := by
  decide

/-! ## C4: the empty Open filter -/

/-- **C4** (amended).  On a valid table with no Open record,
`open_complaint_pivot` returns normally: a report with zero data rows and a
single all-zero `Grand_Total` row (and no department columns, since pivot
columns come from the filtered data).  `agging_open_pivot_dict`, however,
does **not** return normally: its pivot of the empty filtered frame has no
columns (pandas drops the all-NaN columns of an empty pivot), so the
line-158 reorder `pivot_data[labels]` raises a `KeyError` naming the
missing bucket labels. -/
theorem C4_empty_open_filter (ref : Int) (rows : List RawRow)
    (h : openRows (table rows) = []) :
    open_complaint_pivot (table rows)
        = .ok (.records [[(Key.str "COMPLAINT TYPE", Cell.strVal "Grand_Total"),
            (Key.str "Grand_Total", Cell.intVal 0)]]) ∧
    agging_open_pivot_dict ref (table rows) = .error (.keyError "<15Days") := by
  constructor
  · rw [open_complaint_pivot_ok, h]
    rfl
  · rw [agging_open_pivot_dict]
    simp only [show (table rows).hasStatus = true from rfl,
      show (table rows).hasDate = true from rfl,
      show (table rows).hasType = true from rfl, requireCol, if_true, h]
    rfl

/-- **C4** witness: a valid one-record table whose only record is Closed. -/
theorem C4_witness :
    open_complaint_pivot (table [mkRow 1 "X" "D" "Closed" 900])
        = .ok (.records [[(Key.str "COMPLAINT TYPE", Cell.strVal "Grand_Total"),
            (Key.str "Grand_Total", Cell.intVal 0)]]) ∧
    agging_open_pivot_dict 77 (table [mkRow 1 "X" "D" "Closed" 900])
        = .error (.keyError "<15Days") :=
  C4_empty_open_filter 77 [mkRow 1 "X" "D" "Closed" 900] (by decide)

/-- **C4** counterexample to the claim as stated: on a valid table with one
Closed record and zero Open records, `agging_open_pivot_dict` raises a
`KeyError` (the missing bucket-label columns of the empty pivot) instead of
returning a pivot with a `Grand_Total` row of zeros. -/
theorem C4_counterexample :
    agging_open_pivot_dict 1000 (table [mkRow 3 "Leak" "Sewer" "Closed" 900])
      = .error (.keyError "<15Days") := by
  decide

/-! ## C9: determinism -/

/-- **C9**.  Every report function is a pure function of the loaded table
and the frozen reference time: two calls with equal tables and equal
reference times return equal outputs (there is no hidden state; the only
ambient input of the source, `pd.Timestamp.today()`, is the reference time
made explicit in the embedding). -/
theorem C9_deterministic (t₁ t₂ : RawTable) (ref₁ ref₂ : Int)
    (ht : t₁ = t₂) (href : ref₁ = ref₂) :
    open_complaint_pivot t₁ = open_complaint_pivot t₂ ∧
    open_close_complaint_pivot t₁ = open_close_complaint_pivot t₂ ∧
    agging_open_pivot_dict ref₁ t₁ = agging_open_pivot_dict ref₂ t₂ ∧
    agging_open_close_pivot_dict ref₁ t₁ = agging_open_close_pivot_dict ref₂ t₂ ∧
    generate_all_agging_complaint_report ref₁ t₁
        = generate_all_agging_complaint_report ref₂ t₂ ∧
    open_close_complaint_report t₁ = open_close_complaint_report t₂ := by
  subst ht
  subst href
  exact ⟨rfl, rfl, rfl, rfl, rfl, rfl⟩

/-- **C9** witness: two calls on the same concrete table and reference. -/
theorem C9_witness :
    agging_open_pivot_dict 1000 (table [mkRow 1 "A" "B" "Open" 999])
      = agging_open_pivot_dict 1000 (table [mkRow 1 "A" "B" "Open" 999]) :=
  (C9_deterministic (table [mkRow 1 "A" "B" "Open" 999])
    (table [mkRow 1 "A" "B" "Open" 999]) 1000 1000 rfl rfl).2.2.1

/-! ## C7: integer-typed, non-negative cells -/

theorem cellIntNonneg_natCast (v : Nat) :
    cellIntNonneg (Cell.intVal (v : Int)) = true := by
  simp [cellIntNonneg]

theorem cellNonneg_natCast (v : Nat) :
    cellNonneg (Cell.intVal (v : Int)) = true := by
  simp [cellNonneg]

theorem cells_renderRecords (p : Cell → Bool)
    (hstr : ∀ s, p (Cell.strVal s) = true)
    (hint : ∀ v : Nat, p (Cell.intVal (v : Int)) = true)
    (idx : String) (showCol : κ → Key) (pt : PTable κ) :
    outCellsAll p (renderRecords idx showCol pt) = true := by
  simp only [renderRecords, outCellsAll, List.all_eq_true]
  intro row hrow
  rcases List.mem_map.mp hrow with ⟨rc, _, rfl⟩
  intro f hf
  rcases List.mem_cons.mp hf with rfl | hf2
  · exact hstr _
  · rcases List.mem_map.mp hf2 with ⟨cv, _, rfl⟩
    exact hint _

theorem cells_renderRecordsNoIndex (p : Cell → Bool)
    (hint : ∀ v : Nat, p (Cell.intVal (v : Int)) = true)
    (showCol : κ → Key) (pt : PTable κ) :
    outCellsAll p (renderRecordsNoIndex showCol pt) = true := by
  simp only [renderRecordsNoIndex, outCellsAll, List.all_eq_true]
  intro row hrow
  rcases List.mem_map.mp hrow with ⟨rc, _, rfl⟩
  intro f hf
  rcases List.mem_map.mp hf with ⟨cv, _, rfl⟩
  exact hint _

theorem cells_renderColumnsDict (p : Cell → Bool)
    (hstr : ∀ s, p (Cell.strVal s) = true)
    (hint : ∀ v : Nat, p (Cell.intVal (v : Int)) = true)
    (idx : String) (pt : PTable String) :
    outCellsAll p (renderColumnsDict idx pt) = true := by
  simp only [renderColumnsDict, outCellsAll, List.all_eq_true]
  intro col hcol
  rcases List.mem_cons.mp hcol with rfl | hcol2
  · intro iv hiv
    rcases List.mem_map.mp hiv with ⟨ir, _, rfl⟩
    exact hstr _
  · rcases List.mem_map.mp hcol2 with ⟨jc, _, rfl⟩
    intro iv hiv
    rcases List.mem_map.mp hiv with ⟨q, _, rfl⟩
    exact hint _

theorem open_close_complaint_pivot_ok (rows : List RawRow) :
    open_close_complaint_pivot (table rows)
      = .ok (renderColumnsDict "COMPLAINT TYPE"
          (addGTRow (addGTCol "Grand_Total" (deptStatusPivotFlat rows)))) := rfl

/-- **C7**.  On valid tables, every cell of the five reports that apply the
final `astype(int)` cast (`open_complaint_pivot`, `open_close_complaint_pivot`,
`agging_open_pivot_dict`, `agging_open_close_pivot_dict`,
`open_close_complaint_report`) is an integer-typed non-negative value;
`generate_all_agging_complaint_report` also produces only non-negative
values, but skips the cast — on the empty table its single grand-total cell
comes back float-typed (`0.0`), which none of the casted reports can
produce. -/
theorem C7_integer_cells (ref : Int) (rows : List RawRow) :
    exCellsAll cellIntNonneg (open_complaint_pivot (table rows)) = true ∧
    exCellsAll cellIntNonneg (open_close_complaint_pivot (table rows)) = true ∧
    exCellsAll cellIntNonneg (agging_open_pivot_dict ref (table rows)) = true ∧
    exCellsAll cellIntNonneg (agging_open_close_pivot_dict ref (table rows)) = true ∧
    exCellsAll cellIntNonneg (open_close_complaint_report (table rows)) = true ∧
    exCellsAll cellNonneg (generate_all_agging_complaint_report ref (table rows)) = true ∧
    generate_all_agging_complaint_report ref (table [])
      = .ok (.records [[(Key.str "Grand_Total", Cell.floatVal 0)]]) := by
  refine ⟨?_, ?_, ?_, ?_, ?_, ?_, rfl⟩
  · rw [open_complaint_pivot_ok]
    exact cells_renderRecords cellIntNonneg (fun s => rfl) cellIntNonneg_natCast _ _ _
  · rw [open_close_complaint_pivot_ok]
    exact cells_renderColumnsDict cellIntNonneg (fun s => rfl) cellIntNonneg_natCast _ _
  · rw [agging_open_pivot_dict]
    cases hp : (openRows (table rows)).any (fun r => r.date.isNone) with
    | true =>
      rw [show parseDates (openRows (table rows)) = .error .parseError from by
        rw [parseDates, if_pos hp]]
      rfl
    | false =>
      rw [show parseDates (openRows (table rows)) = .ok () from by
        rw [parseDates, if_neg (by simp [hp])]]
      cases he : (openRows (table rows)).isEmpty with
      | true => rfl
      | false =>
        exact cells_renderRecords cellIntNonneg (fun s => rfl) cellIntNonneg_natCast _ _ _
  · rw [agging_open_close_pivot_dict]
    cases hp : ((table rows).rows).any (fun r => r.date.isNone) with
    | true =>
      rw [show parseDates ((table rows).rows) = .error .parseError from by
        rw [parseDates, if_pos hp]]
      rfl
    | false =>
      rw [show parseDates ((table rows).rows) = .ok () from by
        rw [parseDates, if_neg (by simp [hp])]]
      cases he : ((table rows).rows).isEmpty with
      | true => rfl
      | false =>
        exact cells_renderRecords cellIntNonneg (fun s => rfl) cellIntNonneg_natCast _ _ _
  · rw [open_close_complaint_report_ok]
    exact cells_renderRecords cellIntNonneg (fun s => rfl) cellIntNonneg_natCast _ _ _
  · rw [generate_all_agging_complaint_report]
    cases hp : ((table rows).rows).any (fun r => r.date.isNone) with
    | true =>
      rw [show parseDates ((table rows).rows) = .error .parseError from by
        rw [parseDates, if_pos hp]]
      rfl
    | false =>
      rw [show parseDates ((table rows).rows) = .ok () from by
        rw [parseDates, if_neg (by simp [hp])]]
      cases he : ((table rows).rows).isEmpty with
      | true =>
        rw [show ((table rows).rows) = [] from List.isEmpty_iff.mp he]
        rfl
      | false =>
        show outCellsAll cellNonneg
          (renderRecordsNoIndex (fun c => Key.tup [c.1, c.2.1, c.2.2])
            (addGTRow (addGTCol ("Grand_Total", "", "")
              (mkPivot (table rows).rows (fun r => norm r.complaintType) (cubeMatch ref)
                (uniqueSorted ((table rows).rows.map fun r => norm r.complaintType))
                (cubeCols (table rows).rows))))) = true
        exact cells_renderRecordsNoIndex cellNonneg cellNonneg_natCast _ _

/-! ## C6: uniform record fields -/

/-- After the grand-total augmentation (when the grand-total label is not
already a column), the column keys end with the grand-total key and every
cell row is one longer than before. -/
theorem addGT_fields [DecidableEq κ] (gtKey : κ) (p : PTable κ)
    (hgc : gtKey ∉ p.colKeys)
    (hrows : ∀ row ∈ p.cells, row.length = p.colKeys.length) :
    (addGTRow (addGTCol gtKey p)).colKeys = p.colKeys ++ [gtKey] ∧
    ∀ row ∈ (addGTRow (addGTCol gtKey p)).cells,
      row.length = p.colKeys.length + 1 := by
  rw [addGTCol_of_not_mem _ _ hgc]
  have hlen2 : ∀ row ∈ p.cells.map fun row => row ++ [row.sum],
      row.length = (p.colKeys ++ [gtKey]).length := by
    intro row hrow
    rcases List.mem_map.mp hrow with ⟨a, ha, rfl⟩
    simp [hrows a ha]
  constructor
  · rw [addGTRow]
    split
    · rfl
    · rfl
  · rw [addGTRow]
    split
    · intro row hrow
      rcases List.mem_map.mp hrow with ⟨rc, hmem, rfl⟩
      split
      · rw [foldr_zipWith_length _ _ (by
          intro r hr
          have := hlen2 r hr
          simpa using this)]
        simp
      · have hmem2 := (List.of_mem_zip hmem).2
        have := hlen2 rc.2 hmem2
        simpa using this
    · intro row hrow
      rcases List.mem_append.mp hrow with h | h
      · have := hlen2 row h
        simpa using this
      · rw [List.mem_singleton.mp h]
        rw [foldr_zipWith_length _ _ (by
          intro r hr
          have := hlen2 r hr
          simpa using this)]
        simp

/-- `addGT_fields` specialized to a freshly built pivot, with the key lists
in explicit form. -/
theorem addGT_fields_mkPivot [DecidableEq κ] (gtKey : κ) (rs : List RawRow)
    (rk : RawRow → String) (m : RawRow → κ → Bool)
    (rowKeys : List String) (colKeys : List κ) (hgc : gtKey ∉ colKeys) :
    (addGTRow (addGTCol gtKey (mkPivot rs rk m rowKeys colKeys))).colKeys
      = colKeys ++ [gtKey] ∧
    ∀ row ∈ (addGTRow (addGTCol gtKey (mkPivot rs rk m rowKeys colKeys))).cells,
      row.length = colKeys.length + 1 := by
  have h := addGT_fields gtKey (mkPivot rs rk m rowKeys colKeys) hgc (by
    intro row hrow
    simp only [mkPivot] at hrow
    rcases List.mem_map.mp hrow with ⟨a, _, rfl⟩
    simp [mkPivot])
  exact h

theorem uniformRecordsEx_ok (idx : String) (o : Out) :
    uniformRecordsEx idx (.ok o) = uniformRecordFields idx o := rfl

/-- A rendered report whose column keys end in `Grand_Total` has uniform
row-field names: the index field, then each column key, then the trailing
`Grand_Total` field, identically in every row mapping. -/
theorem uniform_renderRecords (idx : String) (pt : PTable String)
    (mids : List String) (hcols : pt.colKeys = mids ++ ["Grand_Total"])
    (hrows : ∀ row ∈ pt.cells, row.length = mids.length + 1) :
    uniformRecordFields idx (renderRecords idx Key.str pt) := by
  show ∃ mids' : List String, ∀ row ∈ (pt.rowKeys.zip pt.cells).map fun rc =>
      (Key.str idx, Cell.strVal rc.1) ::
        (pt.colKeys.zip rc.2).map fun cv => (Key.str cv.1, Cell.intVal (cv.2 : Int)),
    rowFieldNames row = Key.str idx :: (mids'.map Key.str ++ [Key.str "Grand_Total"])
  refine ⟨mids, ?_⟩
  intro row hrow
  rcases List.mem_map.mp hrow with ⟨rc, hmem, rfl⟩
  rw [rowFieldNames, List.map_cons, List.map_map]
  rw [show ((fun f : Key × Cell => f.1) ∘ fun cv : String × Nat =>
      (Key.str cv.1, Cell.intVal (cv.2 : Int))) = fun cv : String × Nat => Key.str cv.1
    from rfl]
  rw [show (fun cv : String × Nat => Key.str cv.1) = Key.str ∘ Prod.fst from rfl]
  rw [← List.map_map]
  rw [List.map_fst_zip _ _ (by
    rw [hrows rc.2 (List.of_mem_zip hmem).2, hcols]
    simp)]
  rw [hcols, List.map_append]
  rfl

/-- **C6** (amended).  The reports that are returned as row-record
sequences with a reset index — `open_complaint_pivot` (its `DataFrame`
rows), `agging_open_pivot_dict`, `agging_open_close_pivot_dict` and
`open_close_complaint_report` — carry the same field names in every row
mapping: the `COMPLAINT TYPE` field, then each (flattened) column key, then
a trailing `Grand_Total` field; for `open_complaint_pivot` /
`open_close_complaint_report` under the proviso that no data value collides
with the grand-total column label.  The claim fails for the two remaining
functions (see the counterexample): `open_close_complaint_pivot` returns a
column-oriented dict, and `generate_all_agging_complaint_report` returns
row mappings keyed by unflattened column tuples with no complaint-type
field at all. -/
theorem C6_uniform_record_fields (ref : Int) (rows : List RawRow) :
    (("Grand_Total" ∉ (openRows (table rows)).map (·.dept)) →
        uniformRecordsEx "COMPLAINT TYPE" (open_complaint_pivot (table rows))) ∧
    uniformRecordsEx "COMPLAINT TYPE" (agging_open_pivot_dict ref (table rows)) ∧
    uniformRecordsEx "COMPLAINT TYPE" (agging_open_close_pivot_dict ref (table rows)) ∧
    ((("Grand_Total", "") ∉ rows.map fun r => (r.dept, r.status)) →
        uniformRecordsEx "COMPLAINT TYPE" (open_close_complaint_report (table rows))) := by
  refine ⟨?_, ?_, ?_, ?_⟩
  · intro hdept
    rw [open_complaint_pivot_ok, uniformRecordsEx_ok]
    have hgt := addGT_fields_mkPivot "Grand_Total" (openRows (table rows))
      (·.complaintType) (fun r c => decide (r.dept = c))
      (uniqueSorted ((openRows (table rows)).map (·.complaintType)))
      (uniqueSorted ((openRows (table rows)).map (·.dept)))
      (fun hm => hdept ((mem_uniqueSorted _ _).mp hm))
    exact uniform_renderRecords "COMPLAINT TYPE" _
      (uniqueSorted ((openRows (table rows)).map (·.dept))) hgt.1 hgt.2
  · cases hp : (openRows (table rows)).any (fun r => r.date.isNone) with
    | true =>
      rw [show agging_open_pivot_dict ref (table rows) = .error .parseError from by
        rw [agging_open_pivot_dict]
        rw [show parseDates (openRows (table rows)) = .error .parseError from by
          rw [parseDates, if_pos hp]]
        rfl]
      trivial
    | false =>
      cases he : (openRows (table rows)).isEmpty with
      | true =>
        rw [show agging_open_pivot_dict ref (table rows)
            = .error (.keyError "<15Days") from by
          rw [agging_open_pivot_dict]
          rw [show parseDates (openRows (table rows)) = .ok () from by
            rw [parseDates, if_neg (by simp [hp])]]
          rw [show (openRows (table rows)).isEmpty = true from he]
          rfl]
        trivial
      | false =>
        rw [agging_open_pivot_dict_ok ref rows
          (dates_isSome_of_any_false _ hp)
          (by simpa [List.isEmpty_iff] using he)]
        rw [uniformRecordsEx_ok, agingPivot]
        have hgt := addGT_fields_mkPivot "Grand_Total" (openRows (table rows))
          (fun r => norm r.complaintType)
          (fun r lbl => decide (ageBucket (ageDays ref r) = some lbl))
          (uniqueSorted ((openRows (table rows)).map fun r => norm r.complaintType))
          ageLabels (by decide)
        exact uniform_renderRecords "COMPLAINT TYPE" _ ageLabels hgt.1 hgt.2
  · cases hp : ((table rows).rows).any (fun r => r.date.isNone) with
    | true =>
      rw [show agging_open_close_pivot_dict ref (table rows) = .error .parseError from by
        rw [agging_open_close_pivot_dict]
        rw [show parseDates ((table rows).rows) = .error .parseError from by
          rw [parseDates, if_pos hp]]
        rfl]
      trivial
    | false =>
      cases he : ((table rows).rows).isEmpty with
      | true =>
        rw [show agging_open_close_pivot_dict ref (table rows)
            = .error (.keyError "<15Days") from by
          rw [agging_open_close_pivot_dict]
          rw [show parseDates ((table rows).rows) = .ok () from by
            rw [parseDates, if_neg (by simp [hp])]]
          rw [show ((table rows).rows).isEmpty = true from he]
          rfl]
        trivial
      | false =>
        rw [agging_open_close_pivot_dict_ok ref rows
          (dates_isSome_of_any_false _ hp)
          (by simpa [List.isEmpty_iff] using he)]
        rw [uniformRecordsEx_ok, agingPivot]
        have hgt := addGT_fields_mkPivot "Grand_Total" rows
          (fun r => norm r.complaintType)
          (fun r lbl => decide (ageBucket (ageDays ref r) = some lbl))
          (uniqueSorted (rows.map fun r => norm r.complaintType))
          ageLabels (by decide)
        exact uniform_renderRecords "COMPLAINT TYPE" _ ageLabels hgt.1 hgt.2
  · intro hpair
    rw [open_close_complaint_report_ok, uniformRecordsEx_ok]
    have hgt := addGT_fields_mkPivot ("Grand_Total", "") rows
      (fun r => norm r.complaintType)
      (fun r c => decide ((r.dept, r.status) = c))
      (uniqueSorted (rows.map fun r => norm r.complaintType))
      (uniqueSortedBy pairLe (rows.map fun r => (r.dept, r.status)))
      (fun hm => hpair ((mem_uniqueSortedBy pairLe _ _).mp hm))
    refine uniform_renderRecords "COMPLAINT TYPE" _
      ((uniqueSortedBy pairLe (rows.map fun r => (r.dept, r.status))).map
        (fun c => stripUnderscore (c.1 ++ "_" ++ c.2))) ?_ ?_
    · show (deptStatusRawPivotGT rows).colKeys.map
          (fun c => stripUnderscore (c.1 ++ "_" ++ c.2)) = _
      rw [show (deptStatusRawPivotGT rows).colKeys
          = (uniqueSortedBy pairLe (rows.map fun r => (r.dept, r.status)))
            ++ [("Grand_Total", "")] from hgt.1]
      rw [List.map_append]
      rfl
    · show ∀ row ∈ (deptStatusRawPivotGT rows).cells, _
      intro row hrow
      rw [List.length_map]
      exact hgt.2 row hrow

/-- **C6** witness: uniform fields verified on a concrete two-record
table for `open_complaint_pivot` and `open_close_complaint_report`. -/
theorem C6_witness :
    uniformRecordsEx "COMPLAINT TYPE"
      (open_complaint_pivot (table [mkRow 1 "Leak" "Water" "Open" 1000,
        mkRow 2 "Road" "Roads" "Open" 995])) ∧
    uniformRecordsEx "COMPLAINT TYPE"
      (open_close_complaint_report (table [mkRow 1 "Leak" "Water" "Open" 1000,
        mkRow 2 "Road" "Roads" "Open" 995])) :=
  ⟨(C6_uniform_record_fields 1000 [mkRow 1 "Leak" "Water" "Open" 1000,
      mkRow 2 "Road" "Roads" "Open" 995]).1 (by decide),
   (C6_uniform_record_fields 1000 [mkRow 1 "Leak" "Water" "Open" 1000,
      mkRow 2 "Road" "Roads" "Open" 995]).2.2.2 (by decide)⟩

/-- **C6** counterexample to the claim as stated: on a concrete valid
table, `open_close_complaint_pivot` does not return an ordered sequence of
row mappings at all (it returns the column-oriented `to_dict()` default),
and `generate_all_agging_complaint_report`'s row mappings carry no
`COMPLAINT TYPE` field (the index is dropped, and its column keys are
unflattened tuples). -/
theorem C6_counterexample :
    returnsRecords (open_close_complaint_pivot
        (table [mkRow 1 "Leak" "Water" "Open" 1000])) = false ∧
    returnsRecords (generate_all_agging_complaint_report 1000
        (table [mkRow 1 "Leak" "Water" "Open" 999])) = true ∧
    rowsHaveField (Key.str "COMPLAINT TYPE")
        (generate_all_agging_complaint_report 1000
          (table [mkRow 1 "Leak" "Water" "Open" 999])) = false := by
  decide

/-! ## C5: normalization of cosmetic variants -/

theorem map_eq_of_forall₂ (R : RawRow → RawRow → Prop) (f : RawRow → β)
    (l l' : List RawRow) (h : List.Forall₂ R l l')
    (hf : ∀ x y, R x y → f x = f y) : l.map f = l'.map f := by
  induction h with
  | nil => rfl
  | cons hxy _ ih => simp only [List.map_cons, hf _ _ hxy, ih]

theorem filter_length_eq_of_forall₂ (R : RawRow → RawRow → Prop) (p : RawRow → Bool)
    (l l' : List RawRow) (h : List.Forall₂ R l l')
    (hp : ∀ x y, R x y → p x = p y) :
    (l.filter p).length = (l'.filter p).length := by
  induction h with
  | nil => rfl
  | @cons a b l₁ l₂ hxy _ ih =>
    rw [List.filter_cons, List.filter_cons, hp a b hxy]
    cases hb : p b with
    | true => simp [ih]
    | false => simp [ih]

theorem forall₂_filter (R : RawRow → RawRow → Prop) (p : RawRow → Bool)
    (l l' : List RawRow) (h : List.Forall₂ R l l')
    (hp : ∀ x y, R x y → p x = p y) :
    List.Forall₂ R (l.filter p) (l'.filter p) := by
  induction h with
  | nil => exact List.Forall₂.nil
  | @cons a b l₁ l₂ hxy _ ih =>
    rw [List.filter_cons, List.filter_cons, hp a b hxy]
    cases hb : p b with
    | true => exact List.Forall₂.cons hxy ih
    | false => exact ih

theorem any_eq_of_forall₂ (R : RawRow → RawRow → Prop) (p : RawRow → Bool)
    (l l' : List RawRow) (h : List.Forall₂ R l l')
    (hp : ∀ x y, R x y → p x = p y) : l.any p = l'.any p := by
  induction h with
  | nil => rfl
  | @cons a b l₁ l₂ hxy _ ih => rw [List.any_cons, List.any_cons, hp a b hxy, ih]

theorem isEmpty_eq_of_forall₂ (R : RawRow → RawRow → Prop) (l l' : List RawRow)
    (h : List.Forall₂ R l l') : l.isEmpty = l'.isEmpty := by
  cases h with
  | nil => rfl
  | cons _ _ => rfl

theorem cellCount_eq_of_forall₂ [DecidableEq κ] (R : RawRow → RawRow → Prop)
    (rk : RawRow → String) (m : RawRow → κ → Bool) (l l' : List RawRow)
    (h : List.Forall₂ R l l')
    (hrk : ∀ x y, R x y → rk x = rk y) (hm : ∀ x y c, R x y → m x c = m y c) :
    ∀ r c, cellCount l rk m r c = cellCount l' rk m r c := by
  intro r c
  exact filter_length_eq_of_forall₂ R _ l l' h
    (fun x y hxy => by rw [hrk x y hxy, hm x y c hxy])

theorem mkPivot_congr [DecidableEq κ] (rs rs' : List RawRow) (rk : RawRow → String)
    (m : RawRow → κ → Bool) (rowKeys : List String) (colKeys : List κ)
    (h : ∀ r c, cellCount rs rk m r c = cellCount rs' rk m r c) :
    mkPivot rs rk m rowKeys colKeys = mkPivot rs' rk m rowKeys colKeys := by
  rw [mkPivot, mkPivot]
  refine congrArg (PTable.mk _ _) ?_
  refine List.map_congr_left ?_
  intro r _
  refine List.map_congr_left ?_
  intro c _
  exact h r c

/-- **C5** (amended).  Grouping collapses cosmetic variants exactly where
the source normalizes before pivoting: `open_close_complaint_pivot` and
`generate_all_agging_complaint_report` produce identical reports on two
tables whose rows agree up to surrounding whitespace / letter case
(equivalently: equal after the code's own `strip().title()` normalization)
in complaint type, department and status; the two aging dict reports do so
for cosmetic variants of the complaint type (their other fields held
equal).  The claim fails for `open_complaint_pivot` (see the
counterexample): its complaint-type normalization on line 28 is applied to
the frame `df`, but the pivot is built from the filtered copy `df_open`
taken on line 27, so cosmetic complaint-type variants stay separate rows —
and its department values are never normalized at all.
`open_close_complaint_report` likewise normalizes only the complaint
type, not department/status. -/
theorem C5_cosmetic_normalization (ref : Int) (rows rows' : List RawRow) :
    (List.Forall₂ cosmeticEquivRec rows rows' →
      open_close_complaint_pivot (table rows) = open_close_complaint_pivot (table rows') ∧
      generate_all_agging_complaint_report ref (table rows)
        = generate_all_agging_complaint_report ref (table rows')) ∧
    (List.Forall₂ ctEquivRec rows rows' →
      agging_open_pivot_dict ref (table rows) = agging_open_pivot_dict ref (table rows') ∧
      agging_open_close_pivot_dict ref (table rows)
        = agging_open_close_pivot_dict ref (table rows')) := by
  constructor
  · intro h
    have hct : rows.map (fun r => norm r.complaintType)
        = rows'.map (fun r => norm r.complaintType) :=
      map_eq_of_forall₂ _ _ _ _ h (fun x y hxy => hxy.2.1)
    have hdept : rows.map (fun r => norm r.dept) = rows'.map (fun r => norm r.dept) :=
      map_eq_of_forall₂ _ _ _ _ h (fun x y hxy => hxy.2.2.1)
    have hstat : rows.map (fun r => norm r.status) = rows'.map (fun r => norm r.status) :=
      map_eq_of_forall₂ _ _ _ _ h (fun x y hxy => hxy.2.2.2.1)
    have hpair : rows.map (fun r => (norm r.dept, norm r.status))
        = rows'.map (fun r => (norm r.dept, norm r.status)) :=
      map_eq_of_forall₂ _ _ _ _ h
        (fun x y hxy => by rw [hxy.2.2.1, hxy.2.2.2.1])
    constructor
    · rw [open_close_complaint_pivot_ok, open_close_complaint_pivot_ok]
      have hmk : mkPivot rows (fun r => norm r.complaintType)
            (fun r c => decide ((norm r.dept, norm r.status) = c))
            (uniqueSorted (rows.map fun r => norm r.complaintType))
            (uniqueSortedBy pairLe (rows.map fun r => (norm r.dept, norm r.status)))
          = mkPivot rows' (fun r => norm r.complaintType)
            (fun r c => decide ((norm r.dept, norm r.status) = c))
            (uniqueSorted (rows'.map fun r => norm r.complaintType))
            (uniqueSortedBy pairLe (rows'.map fun r => (norm r.dept, norm r.status))) := by
        rw [← hct, ← hpair]
        exact mkPivot_congr _ _ _ _ _ _
          (cellCount_eq_of_forall₂ _ _ _ _ _ h
            (fun x y hxy => hxy.2.1)
            (fun x y c hxy => by rw [hxy.2.2.1, hxy.2.2.2.1]))
      rw [deptStatusPivotFlat, deptStatusPivotFlat, hmk]
    · have hany : ((table rows).rows.any fun r => r.date.isNone)
          = ((table rows').rows.any fun r => r.date.isNone) :=
        any_eq_of_forall₂ _ _ _ _ h (fun x y hxy => by rw [hxy.2.2.2.2])
      have hemp : rows.isEmpty = rows'.isEmpty := isEmpty_eq_of_forall₂ _ _ _ h
      cases hp : ((table rows).rows.any fun r => r.date.isNone) with
      | true =>
        rw [show generate_all_agging_complaint_report ref (table rows)
            = .error .parseError from by
          rw [generate_all_agging_complaint_report]
          rw [show parseDates ((table rows).rows) = .error .parseError from by
            rw [parseDates, if_pos hp]]
          rfl]
        rw [show generate_all_agging_complaint_report ref (table rows')
            = .error .parseError from by
          rw [generate_all_agging_complaint_report]
          rw [show parseDates ((table rows').rows) = .error .parseError from by
            rw [parseDates, if_pos (hany ▸ hp)]]
          rfl]
      | false =>
        cases he : rows.isEmpty with
        | true =>
          rw [show rows = [] from List.isEmpty_iff.mp he] at h ⊢
          cases h
          rfl
        | false =>
          rw [generate_all_agging_complaint_report_ok ref rows
            (dates_isSome_of_any_false _ hp)
            (by simpa [List.isEmpty_iff] using he)]
          rw [generate_all_agging_complaint_report_ok ref rows'
            (dates_isSome_of_any_false _ (hany ▸ hp))
            (by
              have h2 : rows'.isEmpty = false := hemp ▸ he
              simpa [List.isEmpty_iff] using h2)]
          have hcube : cubeCols rows = cubeCols rows' := by
            rw [cubeCols, cubeCols, hdept, hstat]
          have hmk : mkPivot rows (fun r => norm r.complaintType) (cubeMatch ref)
                (uniqueSorted (rows.map fun r => norm r.complaintType)) (cubeCols rows)
              = mkPivot rows' (fun r => norm r.complaintType) (cubeMatch ref)
                (uniqueSorted (rows'.map fun r => norm r.complaintType))
                (cubeCols rows') := by
            rw [← hct, ← hcube]
            exact mkPivot_congr _ _ _ _ _ _
              (cellCount_eq_of_forall₂ _ _ _ _ _ h
                (fun x y hxy => hxy.2.1)
                (fun x y c hxy => by
                  rw [cubeMatch, cubeMatch, show ageDays ref x = ageDays ref y from by
                      rw [ageDays, ageDays, hxy.2.2.2.2],
                    hxy.2.2.1, hxy.2.2.2.1]))
          rw [hmk]
  · intro h
    have hofil : List.Forall₂ ctEquivRec (openRows (table rows)) (openRows (table rows')) :=
      forall₂_filter _ _ _ _ h (fun x y hxy => by
        rw [show x.status = y.status from hxy.2.2.2.1])
    have hct : (openRows (table rows)).map (fun r => norm r.complaintType)
        = (openRows (table rows')).map (fun r => norm r.complaintType) :=
      map_eq_of_forall₂ _ _ _ _ hofil (fun x y hxy => hxy.2.1)
    have hctall : rows.map (fun r => norm r.complaintType)
        = rows'.map (fun r => norm r.complaintType) :=
      map_eq_of_forall₂ _ _ _ _ h (fun x y hxy => hxy.2.1)
    have hcell : ∀ r lbl, cellCount (openRows (table rows))
          (fun r => norm r.complaintType)
          (fun r lbl => decide (ageBucket (ageDays ref r) = some lbl)) r lbl
        = cellCount (openRows (table rows')) (fun r => norm r.complaintType)
          (fun r lbl => decide (ageBucket (ageDays ref r) = some lbl)) r lbl :=
      cellCount_eq_of_forall₂ _ _ _ _ _ hofil
        (fun x y hxy => hxy.2.1)
        (fun x y c hxy => by
          rw [show ageDays ref x = ageDays ref y from by
            rw [ageDays, ageDays, hxy.2.2.2.2]])
    have hcellall : ∀ r lbl, cellCount rows
          (fun r => norm r.complaintType)
          (fun r lbl => decide (ageBucket (ageDays ref r) = some lbl)) r lbl
        = cellCount rows' (fun r => norm r.complaintType)
          (fun r lbl => decide (ageBucket (ageDays ref r) = some lbl)) r lbl :=
      cellCount_eq_of_forall₂ _ _ _ _ _ h
        (fun x y hxy => hxy.2.1)
        (fun x y c hxy => by
          rw [show ageDays ref x = ageDays ref y from by
            rw [ageDays, ageDays, hxy.2.2.2.2]])
    have hany : ((openRows (table rows)).any fun r => r.date.isNone)
        = ((openRows (table rows')).any fun r => r.date.isNone) :=
      any_eq_of_forall₂ _ _ _ _ hofil (fun x y hxy => by rw [hxy.2.2.2.2])
    have hanyall : ((table rows).rows.any fun r => r.date.isNone)
        = ((table rows').rows.any fun r => r.date.isNone) :=
      any_eq_of_forall₂ _ _ _ _ h (fun x y hxy => by rw [hxy.2.2.2.2])
    have hemp : (openRows (table rows)).isEmpty = (openRows (table rows')).isEmpty :=
      isEmpty_eq_of_forall₂ _ _ _ hofil
    have hempall : rows.isEmpty = rows'.isEmpty := isEmpty_eq_of_forall₂ _ _ _ h
    constructor
    · cases hp : ((openRows (table rows)).any fun r => r.date.isNone) with
      | true =>
        rw [show agging_open_pivot_dict ref (table rows) = .error .parseError from by
          rw [agging_open_pivot_dict]
          rw [show parseDates (openRows (table rows)) = .error .parseError from by
            rw [parseDates, if_pos hp]]
          rfl]
        rw [show agging_open_pivot_dict ref (table rows') = .error .parseError from by
          rw [agging_open_pivot_dict]
          rw [show parseDates (openRows (table rows')) = .error .parseError from by
            rw [parseDates, if_pos (hany ▸ hp)]]
          rfl]
      | false =>
        cases he : (openRows (table rows)).isEmpty with
        | true =>
          rw [show agging_open_pivot_dict ref (table rows)
              = .error (.keyError "<15Days") from by
            rw [agging_open_pivot_dict]
            rw [show parseDates (openRows (table rows)) = .ok () from by
              rw [parseDates, if_neg (by simp [hp])]]
            rw [show (openRows (table rows)).isEmpty = true from he]
            rfl]
          rw [show agging_open_pivot_dict ref (table rows')
              = .error (.keyError "<15Days") from by
            rw [agging_open_pivot_dict]
            rw [show parseDates (openRows (table rows')) = .ok () from by
              rw [parseDates, if_neg (by simp [hany ▸ hp])]]
            rw [show (openRows (table rows')).isEmpty = true from hemp ▸ he]
            rfl]
        | false =>
          rw [agging_open_pivot_dict_ok ref rows
            (dates_isSome_of_any_false _ hp)
            (by simpa [List.isEmpty_iff] using he)]
          rw [agging_open_pivot_dict_ok ref rows'
            (dates_isSome_of_any_false _ (hany ▸ hp))
            (by
              have h2 : (openRows (table rows')).isEmpty = false := hemp ▸ he
              simpa [List.isEmpty_iff] using h2)]
          rw [agingPivot, agingPivot, ← hct]
          rw [mkPivot_congr _ _ _ _ _ _ hcell]
    · cases hp : ((table rows).rows.any fun r => r.date.isNone) with
      | true =>
        rw [show agging_open_close_pivot_dict ref (table rows)
            = .error .parseError from by
          rw [agging_open_close_pivot_dict]
          rw [show parseDates ((table rows).rows) = .error .parseError from by
            rw [parseDates, if_pos hp]]
          rfl]
        rw [show agging_open_close_pivot_dict ref (table rows')
            = .error .parseError from by
          rw [agging_open_close_pivot_dict]
          rw [show parseDates ((table rows').rows) = .error .parseError from by
            rw [parseDates, if_pos (hanyall ▸ hp)]]
          rfl]
      | false =>
        cases he : rows.isEmpty with
        | true =>
          rw [show rows = [] from List.isEmpty_iff.mp he] at h ⊢
          cases h
          rfl
        | false =>
          rw [agging_open_close_pivot_dict_ok ref rows
            (dates_isSome_of_any_false _ hp)
            (by simpa [List.isEmpty_iff] using he)]
          rw [agging_open_close_pivot_dict_ok ref rows'
            (dates_isSome_of_any_false _ (hanyall ▸ hp))
            (by
              have h2 : rows'.isEmpty = false := hempall ▸ he
              simpa [List.isEmpty_iff] using h2)]
          rw [agingPivot, agingPivot, ← hctall]
          rw [mkPivot_congr _ _ _ _ _ _ hcellall]

/-- **C5** witness: two concrete tables whose single records differ only
in the casing/whitespace of every string field produce the same
`open_close_complaint_pivot` report. -/
theorem C5_witness :
    open_close_complaint_pivot (table [mkRow 1 "Water Leak" "Water" "Open" 1000])
      = open_close_complaint_pivot (table [mkRow 1 " water leak " "WATER" " OPEN " 1000]) :=
  ((C5_cosmetic_normalization 1000 [mkRow 1 "Water Leak" "Water" "Open" 1000]
      [mkRow 1 " water leak " "WATER" " OPEN " 1000]).1
    (List.Forall₂.cons (by refine ⟨rfl, ?_, ?_, ?_, rfl⟩ <;> decide)
      List.Forall₂.nil)).1

/-- **C5** counterexample to the claim as stated: in `open_complaint_pivot`
two Open records whose complaint types differ only cosmetically
(`"Leak"` vs `" leak "`, equal after trim+titlecase) do **not** group into
one pivot row — the two tables produce different reports, because the
line-28 normalization mutates the frame that was already copied away by the
line-27 filter. -/
theorem C5_counterexample :
    norm "Leak" = norm " leak " ∧
    open_complaint_pivot (table [mkRow 1 "Leak" "Water" "Open" 1000])
      ≠ open_complaint_pivot (table [mkRow 1 " leak " "Water" "Open" 1000]) := by
  decide

/-! ## C8: error propagation -/

theorem parseDates_err_of_mem (rs : List RawRow) (h : ∃ r ∈ rs, r.date = none) :
    parseDates rs = .error .parseError := by
  rw [parseDates, if_pos]
  rcases h with ⟨r, hr, hd⟩
  exact List.any_eq_true.mpr ⟨r, hr, by rw [hd]; rfl⟩

/-- **C8** (amended).  Missing required columns make every report function
fail with the `KeyError` for the first column it touches in source order,
and an unparsable filed-date value makes a function fail with a parse error
exactly when it lies among the rows that function actually parses: all rows
for `agging_open_close_pivot_dict` and
`generate_all_agging_complaint_report`, but only the rows surviving the
Open filter for `agging_open_pivot_dict` (line 130 filters before the
line-133 `pd.to_datetime`) — an unparsable date in a Closed row does not
make `agging_open_pivot_dict` fail, which is where the original claim
breaks.  Failures carry no partial result (`Except` returns either the
error or the report, never both). -/
theorem C8_error_propagation (sl ty d st da : Bool) (rows : List RawRow) (ref : Int) :
    (open_complaint_pivot ⟨sl, ty, d, false, da, rows⟩
        = .error (.keyError "CLOSED/OPEN") ∧
     open_complaint_pivot ⟨sl, false, d, true, da, rows⟩
        = .error (.keyError "COMPLAINT TYPE") ∧
     open_complaint_pivot ⟨sl, true, false, true, da, rows⟩
        = .error (.keyError "DEPT")) ∧
    (open_close_complaint_pivot ⟨sl, false, d, st, da, rows⟩
        = .error (.keyError "COMPLAINT TYPE") ∧
     open_close_complaint_pivot ⟨sl, true, false, st, da, rows⟩
        = .error (.keyError "DEPT") ∧
     open_close_complaint_pivot ⟨sl, true, true, false, da, rows⟩
        = .error (.keyError "CLOSED/OPEN")) ∧
    (open_close_complaint_report ⟨sl, false, d, st, da, rows⟩
        = .error (.keyError "COMPLAINT TYPE") ∧
     open_close_complaint_report ⟨sl, true, false, st, da, rows⟩
        = .error (.keyError "DEPT") ∧
     open_close_complaint_report ⟨sl, true, true, false, da, rows⟩
        = .error (.keyError "CLOSED/OPEN")) ∧
    (agging_open_pivot_dict ref ⟨sl, ty, d, false, da, rows⟩
        = .error (.keyError "CLOSED/OPEN") ∧
     agging_open_pivot_dict ref ⟨sl, ty, d, true, false, rows⟩
        = .error (.keyError "DATE") ∧
     ((∃ r ∈ openRows (⟨sl, ty, d, true, true, rows⟩ : RawTable), r.date = none) →
        agging_open_pivot_dict ref ⟨sl, ty, d, true, true, rows⟩
          = .error .parseError) ∧
     ((∀ r ∈ openRows (⟨sl, false, d, true, true, rows⟩ : RawTable), r.date.isSome) →
        agging_open_pivot_dict ref ⟨sl, false, d, true, true, rows⟩
          = .error (.keyError "COMPLAINT TYPE"))) ∧
    (agging_open_close_pivot_dict ref ⟨sl, ty, d, st, false, rows⟩
        = .error (.keyError "DATE") ∧
     ((∃ r ∈ rows, r.date = none) →
        agging_open_close_pivot_dict ref ⟨sl, ty, d, st, true, rows⟩
          = .error .parseError) ∧
     ((∀ r ∈ rows, r.date.isSome) →
        agging_open_close_pivot_dict ref ⟨sl, false, d, st, true, rows⟩
          = .error (.keyError "COMPLAINT TYPE")) ∧
     ((∀ r ∈ rows, r.date.isSome) →
        agging_open_close_pivot_dict ref ⟨sl, true, d, false, true, rows⟩
          = .error (.keyError "CLOSED/OPEN"))) ∧
    (generate_all_agging_complaint_report ref ⟨sl, ty, d, st, false, rows⟩
        = .error (.keyError "DATE") ∧
     ((∃ r ∈ rows, r.date = none) →
        generate_all_agging_complaint_report ref ⟨sl, ty, d, st, true, rows⟩
          = .error .parseError) ∧
     ((∀ r ∈ rows, r.date.isSome) →
        generate_all_agging_complaint_report ref ⟨sl, false, d, st, true, rows⟩
          = .error (.keyError "COMPLAINT TYPE")) ∧
     ((∀ r ∈ rows, r.date.isSome) →
        generate_all_agging_complaint_report ref ⟨sl, true, false, st, true, rows⟩
          = .error (.keyError "DEPT")) ∧
     ((∀ r ∈ rows, r.date.isSome) →
        generate_all_agging_complaint_report ref ⟨sl, true, true, false, true, rows⟩
          = .error (.keyError "CLOSED/OPEN")) ∧
     ((∀ r ∈ rows, r.date.isSome) →
        generate_all_agging_complaint_report ref ⟨false, true, true, true, true, rows⟩
          = .error (.keyError "SL.NO"))) := by
  refine ⟨⟨rfl, rfl, rfl⟩, ⟨rfl, rfl, rfl⟩, ⟨rfl, rfl, rfl⟩,
    ⟨rfl, rfl, ?_, ?_⟩, ⟨rfl, ?_, ?_, ?_⟩, ⟨rfl, ?_, ?_, ?_, ?_, ?_⟩⟩
  · intro hbad
    rw [agging_open_pivot_dict,
      parseDates_err_of_mem (openRows (⟨sl, ty, d, true, true, rows⟩ : RawTable)) hbad]
    rfl
  · intro hgood
    rw [agging_open_pivot_dict,
      parseDates_ok (openRows (⟨sl, false, d, true, true, rows⟩ : RawTable)) hgood]
    rfl
  · intro hbad
    rw [agging_open_close_pivot_dict,
      parseDates_err_of_mem ((⟨sl, ty, d, st, true, rows⟩ : RawTable).rows)
        (by exact hbad)]
    rfl
  · intro hgood
    rw [agging_open_close_pivot_dict,
      parseDates_ok ((⟨sl, false, d, st, true, rows⟩ : RawTable).rows)
        (by exact hgood)]
    rfl
  · intro hgood
    rw [agging_open_close_pivot_dict,
      parseDates_ok ((⟨sl, true, d, false, true, rows⟩ : RawTable).rows)
        (by exact hgood)]
    rfl
  · intro hbad
    rw [generate_all_agging_complaint_report,
      parseDates_err_of_mem ((⟨sl, ty, d, st, true, rows⟩ : RawTable).rows)
        (by exact hbad)]
    rfl
  · intro hgood
    rw [generate_all_agging_complaint_report,
      parseDates_ok ((⟨sl, false, d, st, true, rows⟩ : RawTable).rows)
        (by exact hgood)]
    rfl
  · intro hgood
    rw [generate_all_agging_complaint_report,
      parseDates_ok ((⟨sl, true, false, st, true, rows⟩ : RawTable).rows)
        (by exact hgood)]
    rfl
  · intro hgood
    rw [generate_all_agging_complaint_report,
      parseDates_ok ((⟨sl, true, true, false, true, rows⟩ : RawTable).rows)
        (by exact hgood)]
    rfl
  · intro hgood
    rw [generate_all_agging_complaint_report,
      parseDates_ok ((⟨false, true, true, true, true, rows⟩ : RawTable).rows)
        (by exact hgood)]
    rfl

/-- **C8** witness: the hypothesis-carrying conjuncts instantiated on
concrete tables (one unparsable Open date; one fully parsable table). -/
theorem C8_witness :
    agging_open_pivot_dict 1000
        (⟨true, true, true, true, true, [⟨1, "A", "W", "Open", none⟩]⟩ : RawTable)
      = .error .parseError ∧
    agging_open_pivot_dict 1000
        (⟨true, false, true, true, true, [mkRow 1 "A" "W" "Open" 999]⟩ : RawTable)
      = .error (.keyError "COMPLAINT TYPE") ∧
    agging_open_close_pivot_dict 1000
        (⟨true, true, true, true, true, [⟨1, "A", "W", "Open", none⟩]⟩ : RawTable)
      = .error .parseError ∧
    agging_open_close_pivot_dict 1000
        (⟨true, false, true, true, true, [mkRow 1 "A" "W" "Open" 999]⟩ : RawTable)
      = .error (.keyError "COMPLAINT TYPE") ∧
    agging_open_close_pivot_dict 1000
        (⟨true, true, true, false, true, [mkRow 1 "A" "W" "Open" 999]⟩ : RawTable)
      = .error (.keyError "CLOSED/OPEN") ∧
    generate_all_agging_complaint_report 1000
        (⟨true, true, true, true, true, [⟨1, "A", "W", "Open", none⟩]⟩ : RawTable)
      = .error .parseError ∧
    generate_all_agging_complaint_report 1000
        (⟨true, false, true, true, true, [mkRow 1 "A" "W" "Open" 999]⟩ : RawTable)
      = .error (.keyError "COMPLAINT TYPE") ∧
    generate_all_agging_complaint_report 1000
        (⟨true, true, false, true, true, [mkRow 1 "A" "W" "Open" 999]⟩ : RawTable)
      = .error (.keyError "DEPT") ∧
    generate_all_agging_complaint_report 1000
        (⟨true, true, true, false, true, [mkRow 1 "A" "W" "Open" 999]⟩ : RawTable)
      = .error (.keyError "CLOSED/OPEN") ∧
    generate_all_agging_complaint_report 1000
        (⟨false, true, true, true, true, [mkRow 1 "A" "W" "Open" 999]⟩ : RawTable)
      = .error (.keyError "SL.NO") :=
  ⟨(C8_error_propagation true true true true true [⟨1, "A", "W", "Open", none⟩] 1000).2.2.2.1.2.2.1
      ⟨⟨1, "A", "W", "Open", none⟩, by decide, rfl⟩,
   (C8_error_propagation true true true true true [mkRow 1 "A" "W" "Open" 999] 1000).2.2.2.1.2.2.2
      (by decide),
   (C8_error_propagation true true true true true [⟨1, "A", "W", "Open", none⟩] 1000).2.2.2.2.1.2.1
      ⟨⟨1, "A", "W", "Open", none⟩, by decide, rfl⟩,
   (C8_error_propagation true true true true true [mkRow 1 "A" "W" "Open" 999] 1000).2.2.2.2.1.2.2.1
      (by decide),
   (C8_error_propagation true true true true true [mkRow 1 "A" "W" "Open" 999] 1000).2.2.2.2.1.2.2.2
      (by decide),
   (C8_error_propagation true true true true true [⟨1, "A", "W", "Open", none⟩] 1000).2.2.2.2.2.2.1
      ⟨⟨1, "A", "W", "Open", none⟩, by decide, rfl⟩,
   (C8_error_propagation true true true true true [mkRow 1 "A" "W" "Open" 999] 1000).2.2.2.2.2.2.2.1
      (by decide),
   (C8_error_propagation true true true true true [mkRow 1 "A" "W" "Open" 999] 1000).2.2.2.2.2.2.2.2.1
      (by decide),
   (C8_error_propagation true true true true true [mkRow 1 "A" "W" "Open" 999] 1000).2.2.2.2.2.2.2.2.2.1
      (by decide),
   (C8_error_propagation true true true true true [mkRow 1 "A" "W" "Open" 999] 1000).2.2.2.2.2.2.2.2.2.2
      (by decide)⟩

/-- **C8** counterexample to the claim as stated: a valid table whose only
unparsable filed-date sits in a Closed row.  `agging_open_pivot_dict`
needs the filed-date column, yet it succeeds (returns a report, no error):
the Open filter of line 130 discards the Closed row before the line-133
`pd.to_datetime` ever sees the bad value. -/
theorem C8_counterexample :
    ((table [mkRow 1 "A" "W" "Open" 999, ⟨2, "B", "W", "Closed", none⟩]).rows.any
        fun r => r.date.isNone) = true ∧
    returnsRecords (agging_open_pivot_dict 1000
        (table [mkRow 1 "A" "W" "Open" 999, ⟨2, "B", "W", "Closed", none⟩])) = true := by
  decide

/-! ## C10: future-dated records -/

theorem filter_absorb {α : Type} (p q : α → Bool) (h : ∀ x, q x = true → p x = true)
    (l : List α) : (l.filter p).filter q = l.filter q := by
  induction l with
  | nil => rfl
  | cons a as ih =>
    cases hq : q a
    · cases hp : p a <;> simp [List.filter_cons, hp, hq, ih]
    · have hp := h a hq
      simp [List.filter_cons, hp, hq, ih]

theorem cellCount_filter_absorb {κ : Type} (rs : List RawRow) (rk : RawRow → String)
    (m : RawRow → κ → Bool) (p : RawRow → Bool)
    (h : ∀ x c, m x c = true → p x = true) (r : String) (c : κ) :
    cellCount (rs.filter p) rk m r c = cellCount rs rk m r c := by
  unfold cellCount
  rw [filter_absorb p (fun x => decide (rk x = r) && m x c)
    (fun x hx => h x c ((Bool.and_eq_true _ _).mp hx).2) rs]

theorem mkPivot_filter_absorb {κ : Type} (rs : List RawRow) (rk : RawRow → String)
    (m : RawRow → κ → Bool) (p : RawRow → Bool)
    (h : ∀ x c, m x c = true → p x = true)
    (rowKeys : List String) (colKeys : List κ) :
    mkPivot (rs.filter p) rk m rowKeys colKeys = mkPivot rs rk m rowKeys colKeys := by
  unfold mkPivot
  simp only [cellCount_filter_absorb rs rk m p h]

/-- Restricting the counted rows of an aging pivot to the records of
non-negative age changes nothing: a negative age matches no bucket column,
so such records contribute to no cell. -/
theorem agingPivot_filter_nonneg (ref : Int) (rowKeys : List String)
    (counted : List RawRow) :
    agingPivot ref rowKeys (counted.filter fun r => decide (0 ≤ ageDays ref r))
      = agingPivot ref rowKeys counted := by
  unfold agingPivot
  refine mkPivot_filter_absorb counted _ _ _ ?_ rowKeys ageLabels
  intro x lbl hx
  have hb := of_decide_eq_true hx
  rcases lt_or_le (ageDays ref x) 0 with hlt | hle
  · rw [ageBucket_neg _ hlt] at hb
    exact absurd hb (by simp)
  · exact decide_eq_true hle

/-- The same absorption for the three-level pivot of
`generate_all_agging_complaint_report`. -/
theorem cubePivot_filter_nonneg (ref : Int) (rowKeys : List String)
    (colKeys : List (String × String × String)) (rows : List RawRow) :
    mkPivot (rows.filter fun r => decide (0 ≤ ageDays ref r))
        (fun r => norm r.complaintType) (cubeMatch ref) rowKeys colKeys
      = mkPivot rows (fun r => norm r.complaintType) (cubeMatch ref) rowKeys colKeys := by
  refine mkPivot_filter_absorb rows _ _ _ ?_ rowKeys colKeys
  intro x c hx
  unfold cubeMatch at hx
  have hb := of_decide_eq_true ((Bool.and_eq_true _ _).mp ((Bool.and_eq_true _ _).mp hx).1).1
  rcases lt_or_le (ageDays ref x) 0 with hlt | hle
  · rw [ageBucket_neg _ hlt] at hb
    exact absurd hb (by simp)
  · exact decide_eq_true hle

/-- **C10** (confirmed).  A record filed after the reference time has a
negative whole-day age and is assigned no age bucket (the `pd.cut` bins
start at 0), and each of the three aging reports equals the report computed
with every such record removed from the counted rows — future-dated records
are excluded from every cell count and hence from the Grand_Total row and
column, silently absent from all totals.  (The row and column key sets are
still drawn from the full considered set: a complaint type all of whose
records are future-dated appears as an all-zero row.) -/
theorem C10_future_dated_excluded (ref : Int) (rows : List RawRow) :
    (∀ r : RawRow, ageDays ref r < 0 → ageBucket (ageDays ref r) = none) ∧
    ((∀ r ∈ openRows (table rows), r.date.isSome) → openRows (table rows) ≠ [] →
      agging_open_pivot_dict ref (table rows)
        = .ok (renderRecords "COMPLAINT TYPE" Key.str
            (addGTRow (addGTCol "Grand_Total"
              (agingPivot ref
                (uniqueSorted ((openRows (table rows)).map fun r => norm r.complaintType))
                ((openRows (table rows)).filter fun r => decide (0 ≤ ageDays ref r))))))) ∧
    ((∀ r ∈ rows, r.date.isSome) → rows ≠ [] →
      agging_open_close_pivot_dict ref (table rows)
        = .ok (renderRecords "COMPLAINT TYPE" Key.str
            (addGTRow (addGTCol "Grand_Total"
              (agingPivot ref (uniqueSorted (rows.map fun r => norm r.complaintType))
                (rows.filter fun r => decide (0 ≤ ageDays ref r))))))) ∧
    ((∀ r ∈ rows, r.date.isSome) → rows ≠ [] →
      generate_all_agging_complaint_report ref (table rows)
        = .ok (renderRecordsNoIndex (fun c => Key.tup [c.1, c.2.1, c.2.2])
            (addGTRow (addGTCol ("Grand_Total", "", "")
              (mkPivot (rows.filter fun r => decide (0 ≤ ageDays ref r))
                (fun r => norm r.complaintType) (cubeMatch ref)
                (uniqueSorted (rows.map fun r => norm r.complaintType))
                (cubeCols rows)))))) := by
  refine ⟨fun r h => ageBucket_neg _ h, ?_, ?_, ?_⟩
  · intro hparse hne
    rw [agging_open_pivot_dict_ok ref rows hparse hne, agingPivot_filter_nonneg]
  · intro hparse hne
    rw [agging_open_close_pivot_dict_ok ref rows hparse hne, agingPivot_filter_nonneg]
  · intro hparse hne
    rw [generate_all_agging_complaint_report_ok ref rows hparse hne, cubePivot_filter_nonneg]

/-- **C10** witness: a table holding one normal Open record and one record
filed five days after the reference time; the future record gets no bucket
and each report equals its future-filtered rendering. -/
theorem C10_witness :
    ageBucket (ageDays 1000 (mkRow 2 "B" "W" "Open" 1005)) = none ∧
    agging_open_pivot_dict 1000
        (table [mkRow 1 "A" "W" "Open" 999, mkRow 2 "B" "W" "Open" 1005])
      = .ok (renderRecords "COMPLAINT TYPE" Key.str
          (addGTRow (addGTCol "Grand_Total"
            (agingPivot 1000
              (uniqueSorted ((openRows (table [mkRow 1 "A" "W" "Open" 999,
                  mkRow 2 "B" "W" "Open" 1005])).map fun r => norm r.complaintType))
              ((openRows (table [mkRow 1 "A" "W" "Open" 999,
                  mkRow 2 "B" "W" "Open" 1005])).filter fun r =>
                decide (0 ≤ ageDays 1000 r)))))) ∧
    agging_open_close_pivot_dict 1000
        (table [mkRow 1 "A" "W" "Open" 999, mkRow 2 "B" "W" "Open" 1005])
      = .ok (renderRecords "COMPLAINT TYPE" Key.str
          (addGTRow (addGTCol "Grand_Total"
            (agingPivot 1000
              (uniqueSorted ([mkRow 1 "A" "W" "Open" 999,
                  mkRow 2 "B" "W" "Open" 1005].map fun r => norm r.complaintType))
              ([mkRow 1 "A" "W" "Open" 999, mkRow 2 "B" "W" "Open" 1005].filter fun r =>
                decide (0 ≤ ageDays 1000 r)))))) ∧
    generate_all_agging_complaint_report 1000
        (table [mkRow 1 "A" "W" "Open" 999, mkRow 2 "B" "W" "Open" 1005])
      = .ok (renderRecordsNoIndex (fun c => Key.tup [c.1, c.2.1, c.2.2])
          (addGTRow (addGTCol ("Grand_Total", "", "")
            (mkPivot ([mkRow 1 "A" "W" "Open" 999,
                  mkRow 2 "B" "W" "Open" 1005].filter fun r =>
                decide (0 ≤ ageDays 1000 r))
              (fun r => norm r.complaintType) (cubeMatch 1000)
              (uniqueSorted ([mkRow 1 "A" "W" "Open" 999,
                  mkRow 2 "B" "W" "Open" 1005].map fun r => norm r.complaintType))
              (cubeCols [mkRow 1 "A" "W" "Open" 999, mkRow 2 "B" "W" "Open" 1005]))))) :=
  ⟨(C10_future_dated_excluded 1000 []).1 (mkRow 2 "B" "W" "Open" 1005) (by decide),
   (C10_future_dated_excluded 1000
      [mkRow 1 "A" "W" "Open" 999, mkRow 2 "B" "W" "Open" 1005]).2.1
      (by decide) (by decide),
   (C10_future_dated_excluded 1000
      [mkRow 1 "A" "W" "Open" 999, mkRow 2 "B" "W" "Open" 1005]).2.2.1
      (by decide) (by decide),
   (C10_future_dated_excluded 1000
      [mkRow 1 "A" "W" "Open" 999, mkRow 2 "B" "W" "Open" 1005]).2.2.2
      (by decide) (by decide)⟩

/-! ## C1: the grand-total invariant for the remaining three report shapes -/

theorem enumFrom_concat {κ : Type} (x : κ) (l : List κ) : ∀ n : Nat,
    List.enumFrom n (l ++ [x]) = List.enumFrom n l ++ [(n + l.length, x)] := by
  induction l with
  | nil => intro n; rfl
  | cons a as ih =>
    intro n
    rw [List.cons_append]
    rw [show List.enumFrom n (a :: (as ++ [x]))
        = (n, a) :: List.enumFrom (n + 1) (as ++ [x]) from rfl]
    rw [ih (n + 1)]
    rw [show List.enumFrom n (a :: as) = (n, a) :: List.enumFrom (n + 1) as from rfl]
    rw [List.cons_append]
    rw [show n + 1 + as.length = n + (a :: as).length from by
      simp only [List.length_cons]
      omega]

theorem enum_concat {κ : Type} (x : κ) (l : List κ) :
    (l ++ [x]).enum = l.enum ++ [(l.length, x)] := by
  show List.enumFrom 0 (l ++ [x]) = List.enumFrom 0 l ++ [(l.length, x)]
  rw [enumFrom_concat x l 0]
  rw [show 0 + l.length = l.length from by omega]

theorem map_getD_range (l : List Nat) :
    (List.range l.length).map (fun j => l.getD j 0) = l := by
  induction l with
  | nil => rfl
  | cons a as ih =>
    rw [List.length_cons, List.range_succ_eq_map, List.map_cons, List.map_map]
    rw [show ((fun j => (a :: as).getD j 0) ∘ Nat.succ) = fun j => as.getD j 0 from
      funext fun j => List.getD_cons_succ]
    rw [ih, List.getD_cons_zero]

theorem getD_concat_length (l : List Nat) (x d : Nat) :
    (l ++ [x]).getD l.length d = x := by
  induction l with
  | nil => rfl
  | cons a as ih =>
    rw [List.cons_append, List.length_cons, List.getD_cons_succ, ih]

theorem getD_append_left (l l' : List Nat) (j d : Nat) (h : j < l.length) :
    (l ++ l').getD j d = l.getD j d := by
  induction l generalizing j with
  | nil => exact absurd h (Nat.not_lt_zero j)
  | cons a as ih =>
    cases j with
    | zero => rfl
    | succ n =>
      rw [List.cons_append, List.getD_cons_succ, List.getD_cons_succ,
        ih n (Nat.lt_of_succ_lt_succ h)]

/-- The integer values carried by an enumerated value column. -/
theorem cd_col_values (V : List Nat) :
    ((V.enum.map fun iv => (iv.1, Cell.intVal (iv.2 : Int))).map fun iv => cellInt iv.2)
      = V.map fun v : Nat => (v : Int) := by
  rw [List.map_map]
  rw [show ((fun iv : Nat × Cell => cellInt iv.2) ∘
        fun iv : Nat × Nat => (iv.1, Cell.intVal (iv.2 : Int)))
      = (fun v : Nat => (v : Int)) ∘ Prod.snd from rfl]
  rw [← List.map_map, List.enum_map_snd]

/-- The last entry of an enumerated value column. -/
theorem cd_col_last (V : List Nat) (v : Nat) :
    (((V ++ [v]).enum.map fun iv => (iv.1, Cell.intVal (iv.2 : Int))).getLastD
        (0, Cell.intVal 0)).2
      = Cell.intVal (v : Int) := by
  rw [enum_concat, List.map_append, List.map_singleton, List.getLastD_concat]

/-- Rendering a pivot whose column keys were relabelled through `f` equals
rendering the original pivot with `f` folded into the column-key display:
the cells do not move. -/
theorem renderRecords_map_col {κ κ' : Type} (idx : String) (f : κ → κ')
    (showCol : κ' → Key) (p : PTable κ) :
    renderRecords idx showCol ⟨p.rowKeys, p.colKeys.map f, p.cells⟩
      = renderRecords idx (fun c => showCol (f c)) p := by
  rw [renderRecords, renderRecords]
  refine congrArg Out.records (List.map_congr_left ?_)
  intro rc _
  refine congrArg (List.cons _) ?_
  rw [show (⟨p.rowKeys, p.colKeys.map f, p.cells⟩ : PTable κ').colKeys
      = p.colKeys.map f from rfl]
  rw [List.zip_map_left, List.map_map]
  rfl

/-- `pivot_report_shape` for a pivot whose column labels were replaced by
an equally long list of strings (the flattened two-level keys of line 93)
before the totals were added: the augmented cells are exactly those of the
underlying pivot. -/
theorem flat_pivot_shape {κ : Type} (rs : List RawRow) (rk : RawRow → String)
    (m : RawRow → κ → Bool) (rowKeys : List String) (colKeys : List κ)
    (ck : List String)
    (hgr : "Grand_Total" ∉ rowKeys) (hgc : "Grand_Total" ∉ ck)
    (hlen : ck.length = colKeys.length) :
    addGTRow (addGTCol "Grand_Total"
        (⟨rowKeys, ck, (mkPivot rs rk m rowKeys colKeys).cells⟩ : PTable String))
      = ⟨rowKeys ++ ["Grand_Total"], ck ++ ["Grand_Total"],
          ((rowKeys.map fun r => ((colKeys.map fun c => cellCount rs rk m r c),
              (colKeys.map fun c => cellCount rs rk m r c).sum)).map fun rc => rc.1 ++ [rc.2])
            ++ [((rowKeys.map fun r => colKeys.map fun c => cellCount rs rk m r c).foldr
                  (List.zipWith (· + ·)) (List.replicate colKeys.length 0))
                ++ [((rowKeys.map fun r =>
                      (colKeys.map fun c => cellCount rs rk m r c).sum)).sum]]⟩ := by
  rw [addGTCol_of_not_mem "Grand_Total" _ hgc, addGTRow_of_not_mem _ hgr]
  simp only [mkPivot, List.map_map]
  refine congrArg (PTable.mk _ _) ?_
  congr 1
  · rw [show List.map ((fun row => row ++ [row.sum]) ∘ fun r =>
        List.map (fun c => cellCount rs rk m r c) colKeys) rowKeys
      = List.map (fun row => row ++ [row.sum])
          (rowKeys.map fun r => List.map (fun c => cellCount rs rk m r c) colKeys)
      from (List.map_map _ _ _).symm]
    rw [show (ck ++ ["Grand_Total"]).length = colKeys.length + 1 from by
      simp [hlen]]
    rw [foldr_zipWith_concat _ List.sum colKeys.length
      (by intro r hr; rcases List.mem_map.mp hr with ⟨a, _, rfl⟩; simp)]
    rw [List.map_map]
    rfl

/-- The `Grand_Total` column read off a rendered column-oriented dict, on
the canonical augmented shape. -/
theorem gtColumnTotalCD_canonical (idx : String) (ck : List String)
    (rowKeys : List String) (dataCells : List (List Nat × Nat))
    (gtVec : List Nat) (grand : Nat)
    (hrows : ∀ rc ∈ dataCells, rc.1.length = ck.length)
    (hvec : gtVec.length = ck.length) :
    gtColumnTotalCD (renderColumnsDict idx
        ⟨rowKeys ++ ["Grand_Total"], ck ++ ["Grand_Total"],
          (dataCells.map fun rc => rc.1 ++ [rc.2]) ++ [gtVec ++ [grand]]⟩)
      = (dataCells.map fun rc => (rc.2 : Int)).sum := by
  simp only [renderColumnsDict, gtColumnTotalCD]
  rw [List.getLastD_cons, enum_concat, List.map_append, List.map_singleton,
    List.getLastD_concat]
  show (((((dataCells.map fun rc => rc.1 ++ [rc.2]) ++ [gtVec ++ [grand]]).map
      fun row => row.getD ck.length 0).enum.map
        fun iv => (iv.1, Cell.intVal (iv.2 : Int))).dropLast.map
          fun iv => cellInt iv.2).sum
    = (dataCells.map fun rc => (rc.2 : Int)).sum
  rw [List.map_append, List.map_map, List.map_singleton]
  rw [List.map_congr_left (g := fun rc : List Nat × Nat => rc.2) (fun rc hrc => by
    simp only [Function.comp]
    rw [← hrows rc hrc, getD_concat_length])]
  rw [show (gtVec ++ [grand]).getD ck.length 0 = grand from by
    rw [← hvec, getD_concat_length]]
  rw [enum_concat, List.map_append, List.map_singleton, List.dropLast_concat]
  rw [cd_col_values, List.map_map]
  rfl

/-- The `Grand_Total` row read off a rendered column-oriented dict, on the
canonical augmented shape. -/
theorem gtRowTotalCD_canonical (idx : String) (ck : List String)
    (rowKeys : List String) (dataCells : List (List Nat × Nat))
    (gtVec : List Nat) (grand : Nat)
    (hvec : gtVec.length = ck.length) :
    gtRowTotalCD (renderColumnsDict idx
        ⟨rowKeys ++ ["Grand_Total"], ck ++ ["Grand_Total"],
          (dataCells.map fun rc => rc.1 ++ [rc.2]) ++ [gtVec ++ [grand]]⟩)
      = (gtVec.sum : Int) := by
  simp only [renderColumnsDict, gtRowTotalCD]
  rw [List.drop_one, List.tail_cons]
  rw [enum_concat, List.map_append, List.map_singleton, List.dropLast_concat]
  rw [List.map_map]
  rw [List.map_congr_left
    (g := fun jc : Nat × String => ((gtVec ++ [grand]).getD jc.1 0 : Int))
    (fun jc _ => by
      simp only [Function.comp]
      rw [List.map_append, List.map_singleton, cd_col_last]
      rfl)]
  rw [show (fun jc : Nat × String => ((gtVec ++ [grand]).getD jc.1 0 : Int))
      = (fun j : Nat => ((gtVec ++ [grand]).getD j 0 : Int)) ∘ Prod.fst from rfl]
  rw [← List.map_map, List.enum_map_fst]
  rw [List.map_congr_left (g := fun j : Nat => (gtVec.getD j 0 : Int)) (fun j hj => by
    rw [getD_append_left _ _ _ _ (by rw [hvec]; exact List.mem_range.mp hj)])]
  rw [show (fun j : Nat => (gtVec.getD j 0 : Int))
      = (fun v : Nat => (v : Int)) ∘ fun j : Nat => gtVec.getD j 0 from rfl]
  rw [← List.map_map, ← hvec, map_getD_range, sum_map_natCast]

/-- The intersection cell read off a rendered column-oriented dict, on the
canonical augmented shape. -/
theorem gtIntersectionCD_canonical (idx : String) (ck : List String)
    (rowKeys : List String) (dataCells : List (List Nat × Nat))
    (gtVec : List Nat) (grand : Nat)
    (hvec : gtVec.length = ck.length) :
    gtIntersectionCD (renderColumnsDict idx
        ⟨rowKeys ++ ["Grand_Total"], ck ++ ["Grand_Total"],
          (dataCells.map fun rc => rc.1 ++ [rc.2]) ++ [gtVec ++ [grand]]⟩)
      = (grand : Int) := by
  simp only [renderColumnsDict, gtIntersectionCD]
  rw [List.getLastD_cons, enum_concat, List.map_append, List.map_singleton,
    List.getLastD_concat]
  show cellInt (((((dataCells.map fun rc => rc.1 ++ [rc.2]) ++ [gtVec ++ [grand]]).map
      fun row => row.getD ck.length 0).enum.map
        fun iv => (iv.1, Cell.intVal (iv.2 : Int))).getLastD (0, Cell.intVal 0)).2
    = (grand : Int)
  rw [List.map_append, List.map_singleton]
  rw [show (gtVec ++ [grand]).getD ck.length 0 = grand from by
    rw [← hvec, getD_concat_length]]
  rw [cd_col_last]
  rfl

/-- The grand-total invariant for the column-oriented dict report of
`open_close_complaint_pivot`: totals over the relabelled augmented pivot
equal the number of `q`-rows. -/
theorem pivot_gt_invariant_cd {κ : Type} [DecidableEq κ] (idx : String)
    (rs : List RawRow) (rk : RawRow → String) (m : RawRow → κ → Bool)
    (rowKeys : List String) (colKeys : List κ) (ck : List String) (q : RawRow → Bool)
    (hr : rowKeys.Nodup)
    (hgr : "Grand_Total" ∉ rowKeys) (hgc : "Grand_Total" ∉ ck)
    (hlen : ck.length = colKeys.length)
    (hcover : ∀ x ∈ rs, rk x ∈ rowKeys)
    (hq : ∀ x ∈ rs, (colKeys.map fun c => if m x c then (1 : Nat) else 0).sum
            = if q x then 1 else 0) :
    gtColumnTotalCD (renderColumnsDict idx (addGTRow (addGTCol "Grand_Total"
        (⟨rowKeys, ck, (mkPivot rs rk m rowKeys colKeys).cells⟩ : PTable String))))
      = ((rs.filter q).length : Int) ∧
    gtRowTotalCD (renderColumnsDict idx (addGTRow (addGTCol "Grand_Total"
        (⟨rowKeys, ck, (mkPivot rs rk m rowKeys colKeys).cells⟩ : PTable String))))
      = ((rs.filter q).length : Int) ∧
    gtIntersectionCD (renderColumnsDict idx (addGTRow (addGTCol "Grand_Total"
        (⟨rowKeys, ck, (mkPivot rs rk m rowKeys colKeys).cells⟩ : PTable String))))
      = ((rs.filter q).length : Int) := by
  have hcells : ∀ row ∈ rowKeys.map fun r => colKeys.map fun c => cellCount rs rk m r c,
      row.length = colKeys.length := by
    intro row hrow
    rcases List.mem_map.mp hrow with ⟨a, _, rfl⟩
    simp
  have hvec : ((rowKeys.map fun r => colKeys.map fun c => cellCount rs rk m r c).foldr
      (List.zipWith (· + ·)) (List.replicate colKeys.length 0)).length = colKeys.length :=
    foldr_zipWith_length _ _ hcells
  have hN : (rowKeys.map fun r => (colKeys.map fun c => cellCount rs rk m r c).sum).sum
      = (rs.filter q).length := sum_cells rs rk m rowKeys colKeys q hr hcover hq
  rw [flat_pivot_shape rs rk m rowKeys colKeys ck hgr hgc hlen]
  refine ⟨?_, ?_, ?_⟩
  · rw [gtColumnTotalCD_canonical idx ck rowKeys
      (rowKeys.map fun r => ((colKeys.map fun c => cellCount rs rk m r c),
        (colKeys.map fun c => cellCount rs rk m r c).sum))
      ((rowKeys.map fun r => colKeys.map fun c => cellCount rs rk m r c).foldr
        (List.zipWith (· + ·)) (List.replicate colKeys.length 0))
      ((rowKeys.map fun r => (colKeys.map fun c => cellCount rs rk m r c).sum).sum)
      (by intro rc hrc
          rcases List.mem_map.mp hrc with ⟨a, _, rfl⟩
          simp [hlen])
      (by rw [hvec, hlen])]
    rw [List.map_map]
    rw [show ((fun rc : List Nat × Nat => (rc.2 : Int)) ∘ fun r =>
        ((colKeys.map fun c => cellCount rs rk m r c),
          (colKeys.map fun c => cellCount rs rk m r c).sum))
      = (fun v : Nat => (v : Int)) ∘ fun r =>
          (colKeys.map fun c => cellCount rs rk m r c).sum from rfl]
    rw [← List.map_map, sum_map_natCast, hN]
  · rw [gtRowTotalCD_canonical idx ck rowKeys
      (rowKeys.map fun r => ((colKeys.map fun c => cellCount rs rk m r c),
        (colKeys.map fun c => cellCount rs rk m r c).sum))
      ((rowKeys.map fun r => colKeys.map fun c => cellCount rs rk m r c).foldr
        (List.zipWith (· + ·)) (List.replicate colKeys.length 0))
      ((rowKeys.map fun r => (colKeys.map fun c => cellCount rs rk m r c).sum).sum)
      (by rw [hvec, hlen])]
    rw [foldr_zipWith_sum _ _ hcells, List.map_map]
    rw [show (List.sum ∘ fun r => colKeys.map fun c => cellCount rs rk m r c)
        = fun r => (colKeys.map fun c => cellCount rs rk m r c).sum from rfl]
    rw [hN]
  · rw [gtIntersectionCD_canonical idx ck rowKeys
      (rowKeys.map fun r => ((colKeys.map fun c => cellCount rs rk m r c),
        (colKeys.map fun c => cellCount rs rk m r c).sum))
      ((rowKeys.map fun r => colKeys.map fun c => cellCount rs rk m r c).foldr
        (List.zipWith (· + ·)) (List.replicate colKeys.length 0))
      ((rowKeys.map fun r => (colKeys.map fun c => cellCount rs rk m r c).sum).sum)
      (by rw [hvec, hlen])]
    rw [hN]

/-- The canonical form of a no-index rendered report (the
`to_dict(orient='records')` without `reset_index` of line 286). -/
theorem renderRecordsNoIndex_shape {κ : Type} (showCol : κ → Key)
    (rowKeys : List String) (colKeys : List κ) (gtKey : κ)
    (dataCells : List (List Nat × Nat)) (gtVec : List Nat) (grand : Nat)
    (hrows : ∀ rc ∈ dataCells, rc.1.length = colKeys.length)
    (hvec : gtVec.length = colKeys.length) :
    renderRecordsNoIndex showCol
        ⟨rowKeys ++ ["Grand_Total"], colKeys ++ [gtKey],
          (dataCells.map fun rc => rc.1 ++ [rc.2]) ++ [gtVec ++ [grand]]⟩
      = .records (
          (dataCells.map fun rc =>
            ((colKeys.zip rc.1).map fun cv : κ × Nat => (showCol cv.1, Cell.intVal (cv.2 : Int)))
            ++ [(showCol gtKey, Cell.intVal (rc.2 : Int))])
          ++ [((colKeys.zip gtVec).map fun cv : κ × Nat => (showCol cv.1, Cell.intVal (cv.2 : Int)))
              ++ [(showCol gtKey, Cell.intVal (grand : Int))]]) := by
  rw [renderRecordsNoIndex]
  rw [show (⟨rowKeys ++ ["Grand_Total"], colKeys ++ [gtKey],
      (dataCells.map fun rc => rc.1 ++ [rc.2]) ++ [gtVec ++ [grand]]⟩ : PTable κ).cells
    = (dataCells.map fun rc => rc.1 ++ [rc.2]) ++ [gtVec ++ [grand]] from rfl]
  rw [show (⟨rowKeys ++ ["Grand_Total"], colKeys ++ [gtKey],
      (dataCells.map fun rc => rc.1 ++ [rc.2]) ++ [gtVec ++ [grand]]⟩ : PTable κ).colKeys
    = colKeys ++ [gtKey] from rfl]
  rw [List.map_append, List.map_map, List.map_singleton]
  refine congrArg Out.records (congrArg₂ (· ++ ·) ?_ ?_)
  · refine List.map_congr_left ?_
    intro rc hrc
    simp only [Function.comp]
    rw [zip_concat _ _ _ _ (hrows rc hrc).symm, List.map_append, List.map_singleton]
  · rw [zip_concat _ _ _ _ hvec.symm, List.map_append, List.map_singleton]

/-- The `Grand_Total` column of a no-index report, on the canonical form. -/
theorem gtColumnTotalNI_canonical {κ : Type} (showCol : κ → Key) (gtKey : κ)
    (colKeys : List κ) (dataCells : List (List Nat × Nat))
    (gtVec : List Nat) (grand : Nat) :
    gtColumnTotal (.records (
        (dataCells.map fun rc =>
          ((colKeys.zip rc.1).map fun cv : κ × Nat => (showCol cv.1, Cell.intVal (cv.2 : Int)))
          ++ [(showCol gtKey, Cell.intVal (rc.2 : Int))])
        ++ [((colKeys.zip gtVec).map fun cv : κ × Nat => (showCol cv.1, Cell.intVal (cv.2 : Int)))
            ++ [(showCol gtKey, Cell.intVal (grand : Int))]]))
      = (dataCells.map fun rc => (rc.2 : Int)).sum := by
  rw [gtColumnTotal, recordRows, List.dropLast_concat, List.map_map]
  refine congrArg List.sum (List.map_congr_left ?_)
  intro rc _
  simp only [Function.comp]
  rw [rowLastInt_concat]
  rfl

/-- The `Grand_Total` row of a no-index report, on the canonical form. -/
theorem gtRowTotalNI_canonical {κ : Type} (showCol : κ → Key) (gtKey : κ)
    (colKeys : List κ) (dataCells : List (List Nat × Nat))
    (gtVec : List Nat) (grand : Nat)
    (hvec : gtVec.length = colKeys.length) :
    gtRowTotalNI (.records (
        (dataCells.map fun rc =>
          ((colKeys.zip rc.1).map fun cv : κ × Nat => (showCol cv.1, Cell.intVal (cv.2 : Int)))
          ++ [(showCol gtKey, Cell.intVal (rc.2 : Int))])
        ++ [((colKeys.zip gtVec).map fun cv : κ × Nat => (showCol cv.1, Cell.intVal (cv.2 : Int)))
            ++ [(showCol gtKey, Cell.intVal (grand : Int))]]))
      = (gtVec.sum : Int) := by
  rw [gtRowTotalNI, recordRows, List.getLastD_concat, List.dropLast_concat, List.map_map]
  rw [List.map_congr_left (g := fun cv : κ × Nat => (cv.2 : Int)) (by intro cv _; rfl)]
  rw [show (fun cv : κ × Nat => (cv.2 : Int))
      = (fun v : Nat => (v : Int)) ∘ Prod.snd from rfl]
  rw [← List.map_map, List.map_snd_zip _ _ (le_of_eq hvec), sum_map_natCast]

/-- The intersection cell of a no-index report, on the canonical form. -/
theorem gtIntersectionNI_canonical {κ : Type} (showCol : κ → Key) (gtKey : κ)
    (colKeys : List κ) (dataCells : List (List Nat × Nat))
    (gtVec : List Nat) (grand : Nat) :
    gtIntersection (.records (
        (dataCells.map fun rc =>
          ((colKeys.zip rc.1).map fun cv : κ × Nat => (showCol cv.1, Cell.intVal (cv.2 : Int)))
          ++ [(showCol gtKey, Cell.intVal (rc.2 : Int))])
        ++ [((colKeys.zip gtVec).map fun cv : κ × Nat => (showCol cv.1, Cell.intVal (cv.2 : Int)))
            ++ [(showCol gtKey, Cell.intVal (grand : Int))]]))
      = (grand : Int) := by
  rw [gtIntersection, recordRows, List.getLastD_concat, rowLastInt_concat]
  rfl

/-- The grand-total invariant for a no-index rendered count pivot. -/
theorem pivot_gt_invariant_ni {κ : Type} [DecidableEq κ] (showCol : κ → Key)
    (rs : List RawRow) (rk : RawRow → String) (m : RawRow → κ → Bool)
    (rowKeys : List String) (colKeys : List κ) (gtKey : κ) (q : RawRow → Bool)
    (hr : rowKeys.Nodup)
    (hgr : "Grand_Total" ∉ rowKeys) (hgc : gtKey ∉ colKeys)
    (hcover : ∀ x ∈ rs, rk x ∈ rowKeys)
    (hq : ∀ x ∈ rs, (colKeys.map fun c => if m x c then (1 : Nat) else 0).sum
            = if q x then 1 else 0) :
    gtColumnTotal (renderRecordsNoIndex showCol
        (addGTRow (addGTCol gtKey (mkPivot rs rk m rowKeys colKeys))))
      = ((rs.filter q).length : Int) ∧
    gtRowTotalNI (renderRecordsNoIndex showCol
        (addGTRow (addGTCol gtKey (mkPivot rs rk m rowKeys colKeys))))
      = ((rs.filter q).length : Int) ∧
    gtIntersection (renderRecordsNoIndex showCol
        (addGTRow (addGTCol gtKey (mkPivot rs rk m rowKeys colKeys))))
      = ((rs.filter q).length : Int) := by
  have hcells : ∀ row ∈ rowKeys.map fun r => colKeys.map fun c => cellCount rs rk m r c,
      row.length = colKeys.length := by
    intro row hrow
    rcases List.mem_map.mp hrow with ⟨a, _, rfl⟩
    simp
  have hvec : ((rowKeys.map fun r => colKeys.map fun c => cellCount rs rk m r c).foldr
      (List.zipWith (· + ·)) (List.replicate colKeys.length 0)).length = colKeys.length :=
    foldr_zipWith_length _ _ hcells
  have hN : (rowKeys.map fun r => (colKeys.map fun c => cellCount rs rk m r c).sum).sum
      = (rs.filter q).length := sum_cells rs rk m rowKeys colKeys q hr hcover hq
  rw [pivot_report_shape rs rk m rowKeys colKeys gtKey hgr hgc]
  rw [renderRecordsNoIndex_shape showCol rowKeys colKeys gtKey
    (rowKeys.map fun r => ((colKeys.map fun c => cellCount rs rk m r c),
      (colKeys.map fun c => cellCount rs rk m r c).sum))
    ((rowKeys.map fun r => colKeys.map fun c => cellCount rs rk m r c).foldr
      (List.zipWith (· + ·)) (List.replicate colKeys.length 0))
    ((rowKeys.map fun r => (colKeys.map fun c => cellCount rs rk m r c).sum).sum)
    (by intro rc hrc
        rcases List.mem_map.mp hrc with ⟨a, _, rfl⟩
        simp)
    hvec]
  refine ⟨?_, ?_, ?_⟩
  · rw [gtColumnTotalNI_canonical]
    rw [List.map_map]
    rw [show ((fun rc : List Nat × Nat => (rc.2 : Int)) ∘ fun r =>
        ((colKeys.map fun c => cellCount rs rk m r c),
          (colKeys.map fun c => cellCount rs rk m r c).sum))
      = (fun v : Nat => (v : Int)) ∘ fun r =>
          (colKeys.map fun c => cellCount rs rk m r c).sum from rfl]
    rw [← List.map_map, sum_map_natCast, hN]
  · rw [gtRowTotalNI_canonical _ _ _ _ _ _ hvec]
    rw [foldr_zipWith_sum _ _ hcells, List.map_map]
    rw [show (List.sum ∘ fun r => colKeys.map fun c => cellCount rs rk m r c)
        = fun r => (colKeys.map fun c => cellCount rs rk m r c).sum from rfl]
    rw [hN]
  · rw [gtIntersectionNI_canonical, hN]

theorem sum_map_flatMap {α β : Type} (l : List α) (f : α → List β) (g : β → Nat) :
    ((l.flatMap f).map g).sum = (l.map fun a => ((f a).map g).sum).sum := by
  induction l with
  | nil => rfl
  | cons a as ih =>
    rw [List.flatMap_cons, List.map_append, List.sum_append, ih, List.map_cons,
      List.sum_cons]

/-- Each considered row matches exactly one column of the three-level
pivot when it received a bucket (its own `(bucket, dept, status)` cell),
and none otherwise. -/
theorem cube_match_count (ref : Int) (x : RawRow) (D S : List String)
    (hD : D.Nodup) (hS : S.Nodup) (hxD : norm x.dept ∈ D) (hxS : norm x.status ∈ S) :
    ((ageLabels.flatMap fun b => D.flatMap fun d => S.map fun s => (b, d, s)).map
        fun c => if cubeMatch ref x c then (1 : Nat) else 0).sum
      = if (ageBucket (ageDays ref x)).isSome then 1 else 0 := by
  have hinner : ∀ b d : String, ((S.map fun s => ((b : String), (d : String), s)).map
      fun c => if cubeMatch ref x c then (1 : Nat) else 0).sum
      = if ageBucket (ageDays ref x) = some b ∧ norm x.dept = d then 1 else 0 := by
    intro b d
    rw [List.map_map]
    by_cases hb : ageBucket (ageDays ref x) = some b ∧ norm x.dept = d
    · rw [if_pos hb]
      rw [List.map_congr_left (g := fun s => if norm x.status = s then (1 : Nat) else 0)
        (fun s _ => by
          simp only [Function.comp, cubeMatch, hb.1, hb.2]
          simp)]
      exact sum_map_ite _ 1 S hS hxS
    · rw [if_neg hb]
      rw [List.map_congr_left (g := fun _ => (0 : Nat)) (fun s _ => by
        simp only [Function.comp, cubeMatch]
        rw [if_neg]
        intro hc
        simp only [Bool.and_eq_true, decide_eq_true_eq] at hc
        exact hb ⟨hc.1.1, hc.1.2⟩)]
      exact sum_map_zero S
  have hmid : ∀ b : String, ((D.flatMap fun d => S.map fun s => ((b : String), d, s)).map
      fun c => if cubeMatch ref x c then (1 : Nat) else 0).sum
      = if ageBucket (ageDays ref x) = some b then 1 else 0 := by
    intro b
    rw [sum_map_flatMap]
    rw [List.map_congr_left
      (g := fun d => if ageBucket (ageDays ref x) = some b ∧ norm x.dept = d
        then (1 : Nat) else 0)
      (fun d _ => hinner b d)]
    by_cases hb : ageBucket (ageDays ref x) = some b
    · rw [if_pos hb]
      rw [List.map_congr_left (g := fun d => if norm x.dept = d then (1 : Nat) else 0)
        (fun d _ => by simp [hb])]
      exact sum_map_ite _ 1 D hD hxD
    · rw [if_neg hb]
      rw [List.map_congr_left (g := fun _ => (0 : Nat)) (fun d _ => by
        rw [if_neg]
        intro hc
        exact hb hc.1)]
      exact sum_map_zero D
  rw [sum_map_flatMap]
  rw [List.map_congr_left
    (g := fun b => if ageBucket (ageDays ref x) = some b then (1 : Nat) else 0)
    (fun b _ => hmid b)]
  rw [List.map_congr_left
    (g := fun lbl => if decide (ageBucket (ageDays ref x) = some lbl)
      then (1 : Nat) else 0)
    (fun lbl _ => by simp)]
  exact bucket_match_count ref x

/-- The padded grand-total tuple is no data column: its first component is
not a bucket label. -/
theorem gt_not_mem_cubeCols (rows : List RawRow) :
    ("Grand_Total", "", "") ∉ cubeCols rows := by
  intro hmem
  rw [cubeCols] at hmem
  rcases List.mem_flatMap.mp hmem with ⟨b, hb, hmem2⟩
  rcases List.mem_flatMap.mp hmem2 with ⟨d, _, hmem3⟩
  rcases List.mem_map.mp hmem3 with ⟨s, _, heq⟩
  have hb1 : b = "Grand_Total" := congrArg Prod.fst heq
  rw [hb1] at hb
  exact absurd hb (by decide)

/-- Grand-total invariant for `open_close_complaint_pivot`: on a valid
table whose normalized complaint types and flattened department/status
labels avoid the reserved `Grand_Total` label, the column-dict report's
totals all equal the full record count (no status filter). -/
theorem open_close_pivot_invariant (rows : List RawRow)
    (h1 : "Grand_Total" ∉ rows.map fun r => norm r.complaintType)
    (h2 : "Grand_Total" ∉ rows.map fun r =>
      stripUnderscore (norm r.dept ++ "_" ++ norm r.status)) :
    (open_close_complaint_pivot (table rows)).map gtColumnTotalCD
        = .ok (rows.length : Int) ∧
    (open_close_complaint_pivot (table rows)).map gtRowTotalCD
        = .ok (rows.length : Int) ∧
    (open_close_complaint_pivot (table rows)).map gtIntersectionCD
        = .ok (rows.length : Int) := by
  have hflat : deptStatusPivotFlat rows
      = ⟨uniqueSorted (rows.map fun r => norm r.complaintType),
         (uniqueSortedBy pairLe (rows.map fun r => (norm r.dept, norm r.status))).map
           (fun c => stripUnderscore (c.1 ++ "_" ++ c.2)),
         (mkPivot rows (fun r => norm r.complaintType)
           (fun r c => decide ((norm r.dept, norm r.status) = c))
           (uniqueSorted (rows.map fun r => norm r.complaintType))
           (uniqueSortedBy pairLe
             (rows.map fun r => (norm r.dept, norm r.status)))).cells⟩ := rfl
  have hgc : "Grand_Total" ∉ (uniqueSortedBy pairLe
      (rows.map fun r => (norm r.dept, norm r.status))).map
        (fun c => stripUnderscore (c.1 ++ "_" ++ c.2)) := by
    intro hmem
    rcases List.mem_map.mp hmem with ⟨c, hc, hfl⟩
    rcases List.mem_map.mp ((mem_uniqueSortedBy pairLe c _).mp hc) with ⟨r, hr, rfl⟩
    exact h2 (List.mem_map.mpr ⟨r, hr, hfl⟩)
  have hinv := pivot_gt_invariant_cd "COMPLAINT TYPE" rows
    (fun r => norm r.complaintType)
    (fun r c => decide ((norm r.dept, norm r.status) = c))
    (uniqueSorted (rows.map fun r => norm r.complaintType))
    (uniqueSortedBy pairLe (rows.map fun r => (norm r.dept, norm r.status)))
    ((uniqueSortedBy pairLe (rows.map fun r => (norm r.dept, norm r.status))).map
      (fun c => stripUnderscore (c.1 ++ "_" ++ c.2)))
    (fun _ => true)
    (nodup_uniqueSorted _)
    (fun hm => h1 ((mem_uniqueSorted _ _).mp hm))
    hgc
    (by simp)
    (fun x hx => (mem_uniqueSorted _ _).mpr (List.mem_map_of_mem _ hx))
    (by
      intro x hx
      rw [show ((uniqueSortedBy pairLe (rows.map fun r => (norm r.dept, norm r.status))).map
            fun c => if decide ((norm x.dept, norm x.status) = c) then (1 : Nat) else 0)
          = (uniqueSortedBy pairLe (rows.map fun r => (norm r.dept, norm r.status))).map
            fun c => if (norm x.dept, norm x.status) = c then (1 : Nat) else 0 from by
        refine List.map_congr_left ?_
        intro c _
        simp]
      rw [sum_map_ite (norm x.dept, norm x.status) 1
        (uniqueSortedBy pairLe (rows.map fun r => (norm r.dept, norm r.status)))
        (nodup_uniqueSortedBy _ _)
        ((mem_uniqueSortedBy pairLe (norm x.dept, norm x.status)
            (rows.map fun r => (norm r.dept, norm r.status))).mpr
          (List.mem_map_of_mem (fun r => (norm r.dept, norm r.status)) hx))]
      rfl)
  rw [open_close_complaint_pivot_ok, hflat]
  have hflt : (rows.filter fun _ => true) = rows := List.filter_true _
  rw [hflt] at hinv
  refine ⟨?_, ?_, ?_⟩
  · simp only [Except.map]
    exact congrArg Except.ok hinv.1
  · simp only [Except.map]
    exact congrArg Except.ok hinv.2.1
  · simp only [Except.map]
    exact congrArg Except.ok hinv.2.2

/-- Grand-total invariant for `open_close_complaint_report`: on a valid
table whose normalized complaint types avoid `Grand_Total` and whose raw
`(dept, status)` pairs avoid the reserved pair `("Grand_Total", "")`, the
report's totals all equal the full record count. -/
theorem open_close_report_invariant (rows : List RawRow)
    (h1 : "Grand_Total" ∉ rows.map fun r => norm r.complaintType)
    (h2 : ("Grand_Total", "") ∉ rows.map fun r => (r.dept, r.status)) :
    (open_close_complaint_report (table rows)).map gtColumnTotal
        = .ok (rows.length : Int) ∧
    (open_close_complaint_report (table rows)).map gtRowTotal
        = .ok (rows.length : Int) ∧
    (open_close_complaint_report (table rows)).map gtIntersection
        = .ok (rows.length : Int) := by
  have hgc : ("Grand_Total", "") ∉ uniqueSortedBy pairLe
      (rows.map fun r => (r.dept, r.status)) :=
    fun hm => h2 ((mem_uniqueSortedBy _ _ _).mp hm)
  have hinv := pivot_gt_invariant "COMPLAINT TYPE"
    (fun c : String × String => Key.str (stripUnderscore (c.1 ++ "_" ++ c.2)))
    rows (fun r => norm r.complaintType)
    (fun r c => decide ((r.dept, r.status) = c))
    (uniqueSorted (rows.map fun r => norm r.complaintType))
    (uniqueSortedBy pairLe (rows.map fun r => (r.dept, r.status)))
    ("Grand_Total", "") (fun _ => true)
    (nodup_uniqueSorted _)
    (fun hm => h1 ((mem_uniqueSorted _ _).mp hm))
    hgc
    (fun x hx => (mem_uniqueSorted _ _).mpr (List.mem_map_of_mem _ hx))
    (by
      intro x hx
      rw [show ((uniqueSortedBy pairLe (rows.map fun r => (r.dept, r.status))).map
            fun c => if decide ((x.dept, x.status) = c) then (1 : Nat) else 0)
          = (uniqueSortedBy pairLe (rows.map fun r => (r.dept, r.status))).map
            fun c => if (x.dept, x.status) = c then (1 : Nat) else 0 from by
        refine List.map_congr_left ?_
        intro c _
        simp]
      rw [sum_map_ite (x.dept, x.status) 1
        (uniqueSortedBy pairLe (rows.map fun r => (r.dept, r.status)))
        (nodup_uniqueSortedBy _ _)
        ((mem_uniqueSortedBy pairLe (x.dept, x.status)
            (rows.map fun r => (r.dept, r.status))).mpr
          (List.mem_map_of_mem (fun r => (r.dept, r.status)) hx))]
      rfl)
  rw [open_close_complaint_report_ok]
  rw [renderRecords_map_col "COMPLAINT TYPE"
    (fun c : String × String => stripUnderscore (c.1 ++ "_" ++ c.2)) Key.str
    (deptStatusRawPivotGT rows)]
  rw [deptStatusRawPivotGT]
  have hflt : (rows.filter fun _ => true) = rows := List.filter_true _
  rw [hflt] at hinv
  refine ⟨?_, ?_, ?_⟩
  · simp only [Except.map]
    exact congrArg Except.ok hinv.1
  · simp only [Except.map]
    exact congrArg Except.ok hinv.2.1
  · simp only [Except.map]
    exact congrArg Except.ok hinv.2.2

/-- Grand-total invariant for `generate_all_agging_complaint_report`: the
totals equal the number of records that received an age bucket (every
record's normalized department/status pair is observed, so only the bucket
can exclude a record from its cell). -/
theorem generate_all_invariant (ref : Int) (rows : List RawRow)
    (h1 : "Grand_Total" ∉ rows.map fun r => norm r.complaintType)
    (hparse : ∀ r ∈ rows, r.date.isSome) (hne : rows ≠ []) :
    (generate_all_agging_complaint_report ref (table rows)).map gtColumnTotal
        = .ok ((rows.filter fun r => (ageBucket (ageDays ref r)).isSome).length : Int) ∧
    (generate_all_agging_complaint_report ref (table rows)).map gtRowTotalNI
        = .ok ((rows.filter fun r => (ageBucket (ageDays ref r)).isSome).length : Int) ∧
    (generate_all_agging_complaint_report ref (table rows)).map gtIntersection
        = .ok ((rows.filter fun r => (ageBucket (ageDays ref r)).isSome).length : Int) := by
  have hinv := pivot_gt_invariant_ni
    (fun c : String × String × String => Key.tup [c.1, c.2.1, c.2.2])
    rows (fun r => norm r.complaintType) (cubeMatch ref)
    (uniqueSorted (rows.map fun r => norm r.complaintType))
    (cubeCols rows) ("Grand_Total", "", "")
    (fun r => (ageBucket (ageDays ref r)).isSome)
    (nodup_uniqueSorted _)
    (fun hm => h1 ((mem_uniqueSorted _ _).mp hm))
    (gt_not_mem_cubeCols rows)
    (fun x hx => (mem_uniqueSorted _ _).mpr (List.mem_map_of_mem _ hx))
    (by
      intro x hx
      rw [cubeCols]
      exact cube_match_count ref x _ _ (nodup_uniqueSorted _) (nodup_uniqueSorted _)
        ((mem_uniqueSorted _ _).mpr (List.mem_map_of_mem _ hx))
        ((mem_uniqueSorted _ _).mpr (List.mem_map_of_mem _ hx)))
  rw [generate_all_agging_complaint_report_ok ref rows hparse hne]
  refine ⟨?_, ?_, ?_⟩
  · simp only [Except.map]
    exact congrArg Except.ok hinv.1
  · simp only [Except.map]
    exact congrArg Except.ok hinv.2.1
  · simp only [Except.map]
    exact congrArg Except.ok hinv.2.2

/-- **C1** (amended).  For every report function, on a valid table whose
label values do not collide with the reserved `Grand_Total` label (pandas
would overwrite that row/column in place instead of appending), after
grand-total augmentation the sum of the `Grand_Total` column over data
rows, the sum of the `Grand_Total` row over data columns and their
intersection cell are all equal, and equal the number of records the pivot
counted: every Open record for `open_complaint_pivot`; every record for
`open_close_complaint_pivot` and `open_close_complaint_report` (no status
filter); and for the three aging reports (`agging_open_pivot_dict`,
`agging_open_close_pivot_dict`, `generate_all_agging_complaint_report`)
every considered record that was assigned an age bucket — a record with
negative whole-day age is considered but excluded from all totals, which
is where the original claim's "count of records considered after the
status filter" fails. -/
theorem C1_grand_total_invariant (ref : Int) (rows : List RawRow) :
    (("Grand_Total" ∉ (openRows (table rows)).map (·.complaintType)) →
     ("Grand_Total" ∉ (openRows (table rows)).map (·.dept)) →
       (open_complaint_pivot (table rows)).map gtColumnTotal
           = .ok ((openRows (table rows)).length : Int) ∧
       (open_complaint_pivot (table rows)).map gtRowTotal
           = .ok ((openRows (table rows)).length : Int) ∧
       (open_complaint_pivot (table rows)).map gtIntersection
           = .ok ((openRows (table rows)).length : Int)) ∧
    (("Grand_Total" ∉ rows.map fun r => norm r.complaintType) →
     ("Grand_Total" ∉ rows.map fun r =>
        stripUnderscore (norm r.dept ++ "_" ++ norm r.status)) →
       (open_close_complaint_pivot (table rows)).map gtColumnTotalCD
           = .ok (rows.length : Int) ∧
       (open_close_complaint_pivot (table rows)).map gtRowTotalCD
           = .ok (rows.length : Int) ∧
       (open_close_complaint_pivot (table rows)).map gtIntersectionCD
           = .ok (rows.length : Int)) ∧
    (("Grand_Total" ∉ rows.map fun r => norm r.complaintType) →
     (("Grand_Total", "") ∉ rows.map fun r => (r.dept, r.status)) →
       (open_close_complaint_report (table rows)).map gtColumnTotal
           = .ok (rows.length : Int) ∧
       (open_close_complaint_report (table rows)).map gtRowTotal
           = .ok (rows.length : Int) ∧
       (open_close_complaint_report (table rows)).map gtIntersection
           = .ok (rows.length : Int)) ∧
    (("Grand_Total" ∉ (openRows (table rows)).map fun r => norm r.complaintType) →
     (∀ r ∈ openRows (table rows), r.date.isSome) →
     openRows (table rows) ≠ [] →
       (agging_open_pivot_dict ref (table rows)).map gtColumnTotal
           = .ok (((openRows (table rows)).filter fun r =>
               (ageBucket (ageDays ref r)).isSome).length : Int) ∧
       (agging_open_pivot_dict ref (table rows)).map gtRowTotal
           = .ok (((openRows (table rows)).filter fun r =>
               (ageBucket (ageDays ref r)).isSome).length : Int) ∧
       (agging_open_pivot_dict ref (table rows)).map gtIntersection
           = .ok (((openRows (table rows)).filter fun r =>
               (ageBucket (ageDays ref r)).isSome).length : Int)) ∧
    (("Grand_Total" ∉ rows.map fun r => norm r.complaintType) →
     (∀ r ∈ rows, r.date.isSome) →
     rows ≠ [] →
       (agging_open_close_pivot_dict ref (table rows)).map gtColumnTotal
           = .ok ((rows.filter fun r => (ageBucket (ageDays ref r)).isSome).length : Int) ∧
       (agging_open_close_pivot_dict ref (table rows)).map gtRowTotal
           = .ok ((rows.filter fun r => (ageBucket (ageDays ref r)).isSome).length : Int) ∧
       (agging_open_close_pivot_dict ref (table rows)).map gtIntersection
           = .ok ((rows.filter fun r => (ageBucket (ageDays ref r)).isSome).length : Int)) ∧
    (("Grand_Total" ∉ rows.map fun r => norm r.complaintType) →
     (∀ r ∈ rows, r.date.isSome) →
     rows ≠ [] →
       (generate_all_agging_complaint_report ref (table rows)).map gtColumnTotal
           = .ok ((rows.filter fun r => (ageBucket (ageDays ref r)).isSome).length : Int) ∧
       (generate_all_agging_complaint_report ref (table rows)).map gtRowTotalNI
           = .ok ((rows.filter fun r => (ageBucket (ageDays ref r)).isSome).length : Int) ∧
       (generate_all_agging_complaint_report ref (table rows)).map gtIntersection
           = .ok ((rows.filter fun r => (ageBucket (ageDays ref r)).isSome).length : Int)) := by
  refine ⟨open_pivot_invariant rows, open_close_pivot_invariant rows,
    open_close_report_invariant rows, ?_, ?_, generate_all_invariant ref rows⟩
  · intro h1 hparse hne
    have hinv := aging_pivot_invariant ref (openRows (table rows)) h1
    rw [agging_open_pivot_dict_ok ref rows hparse hne]
    exact ⟨congrArg Except.ok hinv.1, congrArg Except.ok hinv.2.1,
      congrArg Except.ok hinv.2.2⟩
  · intro h1 hparse hne
    have hinv := aging_pivot_invariant ref rows h1
    rw [agging_open_close_pivot_dict_ok ref rows hparse hne]
    exact ⟨congrArg Except.ok hinv.1, congrArg Except.ok hinv.2.1,
      congrArg Except.ok hinv.2.2⟩

/-- **C1** witness: the invariant of all six report functions instantiated
on the four-record scenario table at reference day 1000 (three Open
records, four records in all, all of them bucketed). -/
theorem C1_witness :
    (open_complaint_pivot (table [mkRow 1 "Leak" "Water" "Open" 1000,
        mkRow 2 "Leak" "Water" "Open" 980, mkRow 3 "Leak" "Sewer" "Closed" 900,
        mkRow 4 "Road" "Roads" "Open" 995])).map gtColumnTotal = .ok 3 ∧
    (open_close_complaint_pivot (table [mkRow 1 "Leak" "Water" "Open" 1000,
        mkRow 2 "Leak" "Water" "Open" 980, mkRow 3 "Leak" "Sewer" "Closed" 900,
        mkRow 4 "Road" "Roads" "Open" 995])).map gtColumnTotalCD = .ok 4 ∧
    (open_close_complaint_report (table [mkRow 1 "Leak" "Water" "Open" 1000,
        mkRow 2 "Leak" "Water" "Open" 980, mkRow 3 "Leak" "Sewer" "Closed" 900,
        mkRow 4 "Road" "Roads" "Open" 995])).map gtRowTotal = .ok 4 ∧
    (agging_open_pivot_dict 1000 (table [mkRow 1 "Leak" "Water" "Open" 1000,
        mkRow 2 "Leak" "Water" "Open" 980, mkRow 3 "Leak" "Sewer" "Closed" 900,
        mkRow 4 "Road" "Roads" "Open" 995])).map gtIntersection = .ok 3 ∧
    (agging_open_close_pivot_dict 1000 (table [mkRow 1 "Leak" "Water" "Open" 1000,
        mkRow 2 "Leak" "Water" "Open" 980, mkRow 3 "Leak" "Sewer" "Closed" 900,
        mkRow 4 "Road" "Roads" "Open" 995])).map gtRowTotal = .ok 4 ∧
    (generate_all_agging_complaint_report 1000 (table [mkRow 1 "Leak" "Water" "Open" 1000,
        mkRow 2 "Leak" "Water" "Open" 980, mkRow 3 "Leak" "Sewer" "Closed" 900,
        mkRow 4 "Road" "Roads" "Open" 995])).map gtRowTotalNI = .ok 4 := by
  have h := C1_grand_total_invariant 1000 [mkRow 1 "Leak" "Water" "Open" 1000,
    mkRow 2 "Leak" "Water" "Open" 980, mkRow 3 "Leak" "Sewer" "Closed" 900,
    mkRow 4 "Road" "Roads" "Open" 995]
  refine ⟨?_, ?_, ?_, ?_, ?_, ?_⟩
  · rw [(h.1 (by decide) (by decide)).1]
    decide
  · rw [(h.2.1 (by decide) (by decide)).1]
    decide
  · rw [(h.2.2.1 (by decide) (by decide)).2.1]
    decide
  · rw [(h.2.2.2.1 (by decide) (by decide) (by decide)).2.2]
    decide
  · rw [(h.2.2.2.2.1 (by decide) (by decide) (by decide)).2.1]
    decide
  · rw [(h.2.2.2.2.2 (by decide) (by decide) (by decide)).2.1]
    decide

/-- **C1** counterexample to the claim as stated: a valid table holding a
single Open record filed one day after the reference time.  The status
filter keeps that record (1 record considered), yet the returned report's
`Grand_Total` column, row and intersection all sum to 0, because the pivot
assigns the record no age bucket and drops it from every count. -/
theorem C1_counterexample :
    (agging_open_pivot_dict 1000 (table [mkRow 1 "A" "D" "Open" 1001])).map gtColumnTotal
        = .ok 0 ∧
    (agging_open_pivot_dict 1000 (table [mkRow 1 "A" "D" "Open" 1001])).map gtIntersection
        = .ok 0 ∧
    ((openRows (table [mkRow 1 "A" "D" "Open" 1001])).length : Int) = 1 := by
  decide

end AgingPivot